import Mathlib

/-!
# epdf: document state, layout engine and lifecycle

A shallow embedding of `src/document.c`, `src/page.c`, `src/types.h` and of
`pdf_page_clear` from `src/pdf-page.c`.

Conventions of the embedding

* A C pointer that may be `NULL` is an `Option`: `none` is `NULL`, `some v` is a
  valid pointer whose pointee currently holds `v`.  A function that writes
  through a pointer returns the new pointee.
* `unsigned int` is 32 bits wide: its values are the naturals below
  `UINT_RANGE`, and `+`, `-`, `*` on it are `uint_add`, `uint_sub`, `uint_mul`.
* `double` values are modelled by exact rationals (finite values only; NaN and
  the infinities are outside the model).  Comparison and storing of finite
  doubles is exact, so nothing is lost where the code only compares and stores.
-/

namespace Epdf

/-! ## Machine integers -/

/-- Number of values of a C `unsigned int` (32 bits). -/
def UINT_RANGE : Nat := 4294967296

/-- Conversion of a mathematical integer to `unsigned int`: reduction modulo
`UINT_RANGE`, which is what C does when such a value is passed as an argument. -/
def to_uint (z : Int) : Nat := (z % (UINT_RANGE : Int)).toNat

/-- Sum of two `unsigned int` values. -/
def uint_add (a b : Nat) : Nat := (a + b) % UINT_RANGE

/-- Difference of two `unsigned int` values (wraps below zero). -/
def uint_sub (a b : Nat) : Nat := (a % UINT_RANGE + UINT_RANGE - b % UINT_RANGE) % UINT_RANGE

/-- Product of two `unsigned int` values. -/
def uint_mul (a b : Nat) : Nat := (a * b) % UINT_RANGE

/-- Conversion of an `unsigned int` to `int` (two's complement). -/
def uint_to_int (a : Nat) : Int :=
  if a % UINT_RANGE < 2147483648 then ((a % UINT_RANGE : Nat) : Int)
  else ((a % UINT_RANGE : Nat) : Int) - (UINT_RANGE : Int)

/-- The constant `DBL_EPSILON` of `<float.h>` for IEEE-754 binary64: `2^-52`. -/
def DBL_EPSILON : ℚ := 1 / 4503599627370496

/-! ## Data model (`types.h`) -/

/-- Adjust mode, `epdf_adjust_mode_t`. -/
inductive epdf_adjust_mode_t where
  | EPDF_ADJUST_NONE
  | EPDF_ADJUST_BESTFIT
  | EPDF_ADJUST_WIDTH
  | EPDF_ADJUST_INPUTBAR
  | EPDF_ADJUST_MODE_NUMBER
  deriving DecidableEq, Repr

/-- Error codes, `epdf_error_t`. -/
inductive epdf_error_t where
  | EPDF_ERROR_OK
  | EPDF_ERROR_UNKNOWN
  | EPDF_ERROR_OUT_OF_MEMORY
  | EPDF_ERROR_NOT_IMPLEMENTED
  | EPDF_ERROR_INVALID_ARGUMENTS
  | EPDF_ERROR_INVALID_PASSWORD
  deriving DecidableEq, Repr

/-- Device scaling structure, `epdf_device_factors_t`. -/
structure epdf_device_factors_t where
  x : ℚ
  y : ℚ
  deriving DecidableEq, Repr

/-- A page, `epdf_page_t`.  `data` is the backend's private page state (an
opaque handle) and `document` the address of the owning document. -/
structure epdf_page_t where
  height : ℚ
  width : ℚ
  index : Nat
  data : Option Nat
  visible : Bool
  document : Option Nat
  deriving DecidableEq, Repr

/-- Modelled from the spec: the selection rectangle that `epdf_page_get_text`
takes, `epdf_rectangle_t`, whose declaration is not part of these sources; the
two corners of the rectangle. -/
structure epdf_rectangle_t where
  x1 : ℚ
  y1 : ℚ
  x2 : ℚ
  y2 : ℚ
  deriving DecidableEq, Repr

/-- The capability table of a backend, `epdf_plugin_functions_t`.  Every slot is
optional.  The C slots receive the document or page pointer; the embedding hands
each slot what the backend reads through that pointer and takes back what the
backend contract lets it set through the public setters:
`document_open` reads the path and the password and sets `number_of_pages` and
`data`; `page_init` reads the document's `data` and the page index and sets the
page's `width`, `height` and `data`. -/
structure epdf_plugin_functions_t where
  document_open : Option (Option String → Option String → epdf_error_t × Nat × Option Nat)
  document_free : Option (Option Nat → epdf_error_t)
  document_save_as : Option (Option Nat → Option String → epdf_error_t)
  document_attachment_save : Option (Option Nat → Option String → Option String → epdf_error_t)
  page_init : Option (Option Nat → Nat → epdf_error_t × ℚ × ℚ × Option Nat)
  page_clear : Option (Nat → Option Nat → epdf_error_t)
  page_render_cairo : Option (Nat → Option Nat → Bool → epdf_error_t)
  page_image_get_cairo : Option (Nat → Option Nat → Nat → Option Nat × Option epdf_error_t)
  page_get_text : Option (Nat → Option Nat → epdf_rectangle_t → Option String × Option epdf_error_t)
  page_get_label : Option (Nat → Option Nat → epdf_error_t × Option String)

/-- A backend, `epdf_plugin_t`: what the document's `plugin` pointer points to. -/
structure epdf_plugin_t where
  functions : epdf_plugin_functions_t

/-- The accessor `epdf_plugin_get_functions` used by `document.c` and `page.c`. -/
def epdf_plugin_get_functions (plugin : epdf_plugin_t) : epdf_plugin_functions_t :=
  plugin.functions

/-- A document, `epdf_document_t`.  The fields are those of `types.h` together
with the `plugin` pointer that `document.c` reads and writes.  `pages` is the
array of page pointers (`none` while it is not allocated), each entry a page
pointer that may itself be `NULL`. -/
structure epdf_document_t where
  file_path : Option String
  uri : Option String
  basename : Option String
  hash_sha256 : List Nat
  password : Option String
  current_page_number : Nat
  number_of_pages : Nat
  zoom : ℚ
  rotate : Nat
  data : Option Nat
  adjust_mode : epdf_adjust_mode_t
  page_offset : Int
  cell_width : ℚ
  cell_height : ℚ
  view_width : Nat
  view_height : Nat
  view_ppi : ℚ
  device_factors : epdf_device_factors_t
  pages_per_row : Nat
  first_page_column : Nat
  page_padding : Nat
  position_x : ℚ
  position_y : ℚ
  pages : Option (List (Option epdf_page_t))
  plugin : Option epdf_plugin_t

/-! ## Rotation (`document.c`) -/

/-- Embeds `epdf_document_get_rotation`. -/
def epdf_document_get_rotation (document : Option epdf_document_t) : Nat :=
  match document with
  | none => 0
  | some d => d.rotate

/-- Embeds `epdf_document_set_rotation`: the new state of the document. -/
def epdf_document_set_rotation (document : Option epdf_document_t) (rotation : Nat) :
    Option epdf_document_t :=
  match document with
  | none => none
  | some d =>
    let rotation := rotation % 360
    if rotation = 0 ∨ rotation > 270 then
      some { d with rotate := 0 }
    else if rotation ≤ 90 then
      some { d with rotate := 90 }
    else if rotation ≤ 180 then
      some { d with rotate := 180 }
    else
      some { d with rotate := 270 }

/-! ## Plain getters and setters (`document.c`) -/

/-- Embeds `check_set_error`: writes `code` through `error` unless it is `NULL`. -/
def check_set_error (error : Option epdf_error_t) (code : epdf_error_t) :
    Option epdf_error_t :=
  match error with
  | none => none
  | some _ => some code

/-- Embeds `epdf_document_get_data`. -/
def epdf_document_get_data (document : Option epdf_document_t) : Option Nat :=
  match document with
  | none => none
  | some d => d.data

/-- Embeds `epdf_document_set_data`. -/
def epdf_document_set_data (document : Option epdf_document_t) (data : Option Nat) :
    Option epdf_document_t :=
  match document with
  | none => none
  | some d => some { d with data := data }

/-- Embeds `epdf_document_get_number_of_pages`. -/
def epdf_document_get_number_of_pages (document : Option epdf_document_t) : Nat :=
  match document with
  | none => 0
  | some d => d.number_of_pages

/-- Embeds `epdf_document_set_number_of_pages`. -/
def epdf_document_set_number_of_pages (document : Option epdf_document_t)
    (number_of_pages : Nat) : Option epdf_document_t :=
  match document with
  | none => none
  | some d => some { d with number_of_pages := number_of_pages }

/-- Embeds `epdf_document_set_current_page_number`. -/
def epdf_document_set_current_page_number (document : Option epdf_document_t)
    (current_page : Nat) : Option epdf_document_t :=
  match document with
  | none => none
  | some d => some { d with current_page_number := current_page }

/-- Embeds `epdf_document_set_position_x`. -/
def epdf_document_set_position_x (document : Option epdf_document_t) (position_x : ℚ) :
    Option epdf_document_t :=
  match document with
  | none => none
  | some d => some { d with position_x := position_x }

/-- Embeds `epdf_document_set_position_y`. -/
def epdf_document_set_position_y (document : Option epdf_document_t) (position_y : ℚ) :
    Option epdf_document_t :=
  match document with
  | none => none
  | some d => some { d with position_y := position_y }

/-- Embeds `epdf_document_set_zoom`. -/
def epdf_document_set_zoom (document : Option epdf_document_t) (zoom : ℚ) :
    Option epdf_document_t :=
  match document with
  | none => none
  | some d => some { d with zoom := zoom }

/-- Embeds `epdf_document_set_adjust_mode`. -/
def epdf_document_set_adjust_mode (document : Option epdf_document_t)
    (mode : epdf_adjust_mode_t) : Option epdf_document_t :=
  match document with
  | none => none
  | some d => some { d with adjust_mode := mode }

/-- Embeds `epdf_document_set_page_offset`: the `unsigned int` argument is
stored into the `int` field. -/
def epdf_document_set_page_offset (document : Option epdf_document_t) (page_offset : Nat) :
    Option epdf_document_t :=
  match document with
  | none => none
  | some d => some { d with page_offset := uint_to_int page_offset }

/-- Embeds `epdf_document_set_viewport_width`. -/
def epdf_document_set_viewport_width (document : Option epdf_document_t) (width : Nat) :
    Option epdf_document_t :=
  match document with
  | none => none
  | some d => some { d with view_width := width }

/-- Embeds `epdf_document_set_viewport_height`. -/
def epdf_document_set_viewport_height (document : Option epdf_document_t) (height : Nat) :
    Option epdf_document_t :=
  match document with
  | none => none
  | some d => some { d with view_height := height }

/-- Embeds `epdf_document_set_viewport_ppi`. -/
def epdf_document_set_viewport_ppi (document : Option epdf_document_t) (ppi : ℚ) :
    Option epdf_document_t :=
  match document with
  | none => none
  | some d => some { d with view_ppi := ppi }

/-! ## Device factors (`document.c`) -/

/-- Embeds `epdf_document_set_device_factors`.  The body of the guard in the
source is the remainder of a logging call followed by `return`: a request with
`fabs(x_factor) < DBL_EPSILON || fabs(y_factor) < DBL_EPSILON` returns without
storing anything. -/
def epdf_document_set_device_factors (document : Option epdf_document_t)
    (x_factor y_factor : ℚ) : Option epdf_document_t :=
  match document with
  | none => none
  | some d =>
    if |x_factor| < DBL_EPSILON ∨ |y_factor| < DBL_EPSILON then
      some d
    else
      some { d with device_factors := { x := x_factor, y := y_factor } }

/-- Embeds `epdf_document_get_device_factors`. -/
def epdf_document_get_device_factors (document : Option epdf_document_t) :
    epdf_device_factors_t :=
  match document with
  | none => { x := 1, y := 1 }
  | some d => d.device_factors

/-! ## Page layout (`document.c`) -/

/-- Ways in which a C call fails to complete. -/
inductive c_trap where
  | division_by_zero
  deriving DecidableEq, Repr

/-- Embeds `epdf_document_get_page_padding`. -/
def epdf_document_get_page_padding (document : Option epdf_document_t) : Nat :=
  match document with
  | none => 0
  | some d => d.page_padding

/-- Embeds `epdf_document_get_pages_per_row`. -/
def epdf_document_get_pages_per_row (document : Option epdf_document_t) : Nat :=
  match document with
  | none => 0
  | some d => d.pages_per_row

/-- Embeds `epdf_document_get_first_page_column`. -/
def epdf_document_get_first_page_column (document : Option epdf_document_t) : Nat :=
  match document with
  | none => 0
  | some d => d.first_page_column

/-- Embeds `epdf_document_set_page_layout`.  The result is the new state of the
document, or `division_by_zero` when the call evaluates `% pages_per_row` with
`pages_per_row == 0` and so does not complete. -/
def epdf_document_set_page_layout (document : Option epdf_document_t)
    (page_padding pages_per_row first_page_column : Nat) :
    Except c_trap (Option epdf_document_t) :=
  match document with
  | none => .ok none
  | some d =>
    let d := { d with page_padding := page_padding, pages_per_row := pages_per_row }
    if first_page_column < 1 then
      .ok (some { d with first_page_column := 1 })
    else if first_page_column > pages_per_row then
      if pages_per_row = 0 then
        .error c_trap.division_by_zero
      else
        .ok (some { d with
          first_page_column := uint_add (uint_sub first_page_column 1 % pages_per_row) 1 })
    else
      .ok (some { d with first_page_column := first_page_column })

/-- Embeds `epdf_document_get_cell_size`.  `height` and `width` are the output
variables (`none` for a `NULL` pointer); the result is their content after the
call.  `page_calc_height_width` is the helper of the same name, which is not
part of these sources: given the document, the raw cell height and width and the
rotate flag it yields the pixel `(height, width)` it writes. -/
def epdf_document_get_cell_size
    (page_calc_height_width : epdf_document_t → ℚ → ℚ → Bool → Nat × Nat)
    (document : Option epdf_document_t) (height width : Option Nat) :
    Option Nat × Option Nat :=
  match document, height, width with
  | some d, some _, some _ =>
    let r := page_calc_height_width d d.cell_height d.cell_width true
    (some r.1, some r.2)
  | _, _, _ => (height, width)

/-- Embeds `epdf_document_get_document_size`.  `height` and `width` are the
output variables (`none` for a `NULL` pointer); the result is their content
after the call. -/
def epdf_document_get_document_size
    (page_calc_height_width : epdf_document_t → ℚ → ℚ → Bool → Nat × Nat)
    (document : Option epdf_document_t) (height width : Option Nat) :
    Option Nat × Option Nat :=
  match document, height, width with
  | some d, some h, some w =>
    let npag := epdf_document_get_number_of_pages (some d)
    let ncol := epdf_document_get_pages_per_row (some d)
    if npag = 0 ∨ ncol = 0 then
      (some h, some w)
    else
      let c0 := epdf_document_get_first_page_column (some d)
      let nrow := uint_sub (uint_add (uint_sub (uint_add npag c0) 1) ncol) 1 / ncol
      let pad := epdf_document_get_page_padding (some d)
      let cell := epdf_document_get_cell_size page_calc_height_width (some d) (some 0) (some 0)
      let cell_height := cell.1.getD 0
      let cell_width := cell.2.getD 0
      (some (uint_add (uint_mul nrow cell_height) (uint_mul (uint_sub nrow 1) pad)),
       some (uint_add (uint_mul ncol cell_width) (uint_mul (uint_sub ncol 1) pad)))
  | _, _, _ => (height, width)

/-! ## Remaining getters, scale and pass-through operations (`document.c`) -/

/-- Embeds `epdf_document_get_path`. -/
def epdf_document_get_path (document : Option epdf_document_t) : Option String :=
  match document with
  | none => none
  | some d => d.file_path

/-- Embeds `epdf_document_get_hash`: the pointer to the digest bytes. -/
def epdf_document_get_hash (document : Option epdf_document_t) : Option (List Nat) :=
  match document with
  | none => none
  | some d => some d.hash_sha256

/-- Embeds `epdf_document_get_uri`. -/
def epdf_document_get_uri (document : Option epdf_document_t) : Option String :=
  match document with
  | none => none
  | some d => d.uri

/-- Embeds `epdf_document_get_basename`. -/
def epdf_document_get_basename (document : Option epdf_document_t) : Option String :=
  match document with
  | none => none
  | some d => d.basename

/-- Embeds `epdf_document_get_password`. -/
def epdf_document_get_password (document : Option epdf_document_t) : Option String :=
  match document with
  | none => none
  | some d => d.password

/-- Embeds `epdf_document_get_page`.  An index below `number_of_pages` that lies
past the end of the array is outside the model and reads as `NULL`. -/
def epdf_document_get_page (document : Option epdf_document_t) (index : Nat) :
    Option epdf_page_t :=
  match document with
  | none => none
  | some d =>
    match d.pages with
    | none => none
    | some pages =>
      if d.number_of_pages ≤ index then none
      else (pages.get? index).join

/-- Embeds `epdf_document_get_current_page_number`. -/
def epdf_document_get_current_page_number (document : Option epdf_document_t) : Nat :=
  match document with
  | none => 0
  | some d => d.current_page_number

/-- Embeds `epdf_document_get_position_x`. -/
def epdf_document_get_position_x (document : Option epdf_document_t) : ℚ :=
  match document with
  | none => 0
  | some d => d.position_x

/-- Embeds `epdf_document_get_position_y`. -/
def epdf_document_get_position_y (document : Option epdf_document_t) : ℚ :=
  match document with
  | none => 0
  | some d => d.position_y

/-- Embeds `epdf_document_get_zoom`. -/
def epdf_document_get_zoom (document : Option epdf_document_t) : ℚ :=
  match document with
  | none => 0
  | some d => d.zoom

/-- Embeds `epdf_document_get_scale`, over exact rational arithmetic. -/
def epdf_document_get_scale (document : Option epdf_document_t) : ℚ :=
  match document with
  | none => 0
  | some d =>
    let ppi := if d.view_ppi < DBL_EPSILON then 100 else d.view_ppi
    d.zoom * ppi / 72

/-- Embeds `epdf_document_get_adjust_mode`. -/
def epdf_document_get_adjust_mode (document : Option epdf_document_t) : epdf_adjust_mode_t :=
  match document with
  | none => epdf_adjust_mode_t.EPDF_ADJUST_NONE
  | some d => d.adjust_mode

/-- Embeds `epdf_document_get_page_offset`. -/
def epdf_document_get_page_offset (document : Option epdf_document_t) : Int :=
  match document with
  | none => 0
  | some d => d.page_offset

/-- Embeds `epdf_document_get_viewport_ppi`. -/
def epdf_document_get_viewport_ppi (document : Option epdf_document_t) : ℚ :=
  match document with
  | none => 0
  | some d => d.view_ppi

/-- Embeds `epdf_document_save_as`. -/
def epdf_document_save_as (document : Option epdf_document_t) (path : Option String) :
    epdf_error_t :=
  match document with
  | none => epdf_error_t.EPDF_ERROR_UNKNOWN
  | some d =>
    match d.plugin, path with
    | none, _ => epdf_error_t.EPDF_ERROR_UNKNOWN
    | some _, none => epdf_error_t.EPDF_ERROR_UNKNOWN
    | some plugin, some p =>
      match (epdf_plugin_get_functions plugin).document_save_as with
      | none => epdf_error_t.EPDF_ERROR_NOT_IMPLEMENTED
      | some document_save_as => document_save_as d.data (some p)

/-- Embeds `epdf_document_attachment_save`. -/
def epdf_document_attachment_save (document : Option epdf_document_t)
    (attachment file : Option String) : epdf_error_t :=
  match document with
  | none => epdf_error_t.EPDF_ERROR_INVALID_ARGUMENTS
  | some d =>
    match d.plugin with
    | none => epdf_error_t.EPDF_ERROR_INVALID_ARGUMENTS
    | some plugin =>
      match (epdf_plugin_get_functions plugin).document_attachment_save with
      | none => epdf_error_t.EPDF_ERROR_NOT_IMPLEMENTED
      | some document_attachment_save => document_attachment_save d.data attachment file

/-! ## Pages (`page.c`) -/

/-- Calls that `epdf_document_open` and `epdf_document_free` make on the backend
and on the allocator, in the order in which they happen. -/
inductive lifecycle_event where
  | document_open
  | page_init (index : Nat)
  | page_clear (index : Nat) (data : Option Nat)
  | page_released (index : Nat)
  | invalid_page_read (index : Nat)
  | document_free (data : Option Nat)
  | document_released
  deriving DecidableEq, Repr

/-- Embeds `epdf_page_get_width`. -/
def epdf_page_get_width (page : Option epdf_page_t) : ℚ :=
  match page with
  | none => -1
  | some p => p.width

/-- Embeds `epdf_page_get_height`. -/
def epdf_page_get_height (page : Option epdf_page_t) : ℚ :=
  match page with
  | none => -1
  | some p => p.height

/-- Embeds `epdf_page_free`.  `functions` is the capability table that
`epdf_plugin_get_functions(epdf_document_get_plugin(page->document))` yields.
The result is the returned code and the calls made: `page_clear` on the
backend, `page_released` for `g_free(page)`. -/
def epdf_page_free (functions : epdf_plugin_functions_t) (page : Option epdf_page_t) :
    epdf_error_t × List lifecycle_event :=
  match page with
  | none => (epdf_error_t.EPDF_ERROR_INVALID_ARGUMENTS, [])
  | some p =>
    match p.document with
    | none =>
      (epdf_error_t.EPDF_ERROR_INVALID_ARGUMENTS, [lifecycle_event.page_released p.index])
    | some _ =>
      match functions.page_clear with
      | none => (epdf_error_t.EPDF_ERROR_NOT_IMPLEMENTED, [])
      | some page_clear =>
        (page_clear p.index p.data,
         [lifecycle_event.page_clear p.index p.data, lifecycle_event.page_released p.index])

/-- Embeds `epdf_page_new`.  `document` is the document pointer, as its address
and the state it points to; `page_memory` tells whether `g_try_malloc0` for the
page succeeds; `functions` is the capability table of the document's backend.
The result is the page (or `NULL`), the content of `error` and the calls made. -/
def epdf_page_new (functions : epdf_plugin_functions_t) (page_memory : Bool)
    (document : Option (Nat × epdf_document_t)) (index : Nat) (error : Option epdf_error_t) :
    Option epdf_page_t × Option epdf_error_t × List lifecycle_event :=
  match document with
  | none => (none, check_set_error error epdf_error_t.EPDF_ERROR_INVALID_ARGUMENTS, [])
  | some (address, d) =>
    if page_memory = false then
      (none, check_set_error error epdf_error_t.EPDF_ERROR_OUT_OF_MEMORY, [])
    else
      let page : epdf_page_t :=
        { height := 0, width := 0, index := index, data := none, visible := false,
          document := some address }
      match functions.page_init with
      | none =>
        (none, check_set_error error epdf_error_t.EPDF_ERROR_NOT_IMPLEMENTED,
         (epdf_page_free functions (some page)).2)
      | some page_init =>
        let r := page_init d.data index
        let page := { page with width := r.2.1, height := r.2.2.1, data := r.2.2.2 }
        if r.1 ≠ epdf_error_t.EPDF_ERROR_OK then
          (none, check_set_error error r.1,
           lifecycle_event.page_init index :: (epdf_page_free functions (some page)).2)
        else
          (some page, error, [lifecycle_event.page_init index])

/-- Embeds `epdf_page_get_document`: the address of the owning document. -/
def epdf_page_get_document (page : Option epdf_page_t) : Option Nat :=
  match page with
  | none => none
  | some p => p.document

/-- Embeds `epdf_page_get_index`. -/
def epdf_page_get_index (page : Option epdf_page_t) : Nat :=
  match page with
  | none => 0
  | some p => p.index

/-- Embeds `epdf_page_get_visibility`. -/
def epdf_page_get_visibility (page : Option epdf_page_t) : Bool :=
  match page with
  | none => false
  | some p => p.visible

/-- Embeds `epdf_page_get_data`. -/
def epdf_page_get_data (page : Option epdf_page_t) : Option Nat :=
  match page with
  | none => none
  | some p => p.data

/-- Embeds `epdf_page_image_get_cairo`.  `image` is the image pointer, `error`
the optional error parameter; the result is the returned surface and the
content of `error` after the call.  The slot answers with the surface and with
the code it writes through `error`, if it writes one. -/
def epdf_page_image_get_cairo (functions : epdf_plugin_functions_t)
    (page : Option epdf_page_t) (image : Option Nat) (error : Option epdf_error_t) :
    Option Nat × Option epdf_error_t :=
  match page with
  | none => (none, check_set_error error epdf_error_t.EPDF_ERROR_INVALID_ARGUMENTS)
  | some p =>
    match p.document, image with
    | none, _ => (none, check_set_error error epdf_error_t.EPDF_ERROR_INVALID_ARGUMENTS)
    | some _, none => (none, check_set_error error epdf_error_t.EPDF_ERROR_INVALID_ARGUMENTS)
    | some _, some img =>
      match functions.page_image_get_cairo with
      | none => (none, check_set_error error epdf_error_t.EPDF_ERROR_NOT_IMPLEMENTED)
      | some page_image_get_cairo =>
        let r := page_image_get_cairo p.index p.data img
        (r.1, match r.2 with
              | none => error
              | some e => check_set_error error e)

/-- Embeds `epdf_page_get_text`: the returned text and the content of `error`
after the call. -/
def epdf_page_get_text (functions : epdf_plugin_functions_t) (page : Option epdf_page_t)
    (rectangle : epdf_rectangle_t) (error : Option epdf_error_t) :
    Option String × Option epdf_error_t :=
  match page with
  | none => (none, check_set_error error epdf_error_t.EPDF_ERROR_INVALID_ARGUMENTS)
  | some p =>
    match p.document with
    | none => (none, check_set_error error epdf_error_t.EPDF_ERROR_INVALID_ARGUMENTS)
    | some _ =>
      match functions.page_get_text with
      | none => (none, check_set_error error epdf_error_t.EPDF_ERROR_NOT_IMPLEMENTED)
      | some page_get_text =>
        let r := page_get_text p.index p.data rectangle
        (r.1, match r.2 with
              | none => error
              | some e => check_set_error error e)

/-- Embeds `epdf_page_render`.  `cairo` is the drawing context pointer. -/
def epdf_page_render (functions : epdf_plugin_functions_t) (page : Option epdf_page_t)
    (cairo : Option Nat) (printing : Bool) : epdf_error_t :=
  match page with
  | none => epdf_error_t.EPDF_ERROR_INVALID_ARGUMENTS
  | some p =>
    match p.document, cairo with
    | none, _ => epdf_error_t.EPDF_ERROR_INVALID_ARGUMENTS
    | some _, none => epdf_error_t.EPDF_ERROR_INVALID_ARGUMENTS
    | some _, some _ =>
      match functions.page_render_cairo with
      | none => epdf_error_t.EPDF_ERROR_NOT_IMPLEMENTED
      | some page_render_cairo => page_render_cairo p.index p.data printing

/-- Embeds `epdf_page_get_label`: the returned label and the content of `error`
after the call. -/
def epdf_page_get_label (functions : epdf_plugin_functions_t) (page : Option epdf_page_t)
    (error : Option epdf_error_t) : Option String × Option epdf_error_t :=
  match page with
  | none => (none, check_set_error error epdf_error_t.EPDF_ERROR_INVALID_ARGUMENTS)
  | some p =>
    match p.document with
    | none => (none, check_set_error error epdf_error_t.EPDF_ERROR_INVALID_ARGUMENTS)
    | some _ =>
      match functions.page_get_label with
      | none => (none, check_set_error error epdf_error_t.EPDF_ERROR_NOT_IMPLEMENTED)
      | some page_get_label =>
        let r := page_get_label p.index p.data
        if r.1 ≠ epdf_error_t.EPDF_ERROR_OK then
          (none, check_set_error error r.1)
        else
          (r.2, error)

/-! ## The PDF backend (`pdf-page.c`) -/

/-- Embeds `pdf_page_clear`.  `page` is the page pointer and `data` the backend
page state; releasing the text page, the page and the state leaves no trace in
the result, which is the returned code. -/
def pdf_page_clear (page : Option Nat) (data : Option Nat) : epdf_error_t :=
  match page with
  | none => epdf_error_t.EPDF_ERROR_INVALID_ARGUMENTS
  | some _ =>
    match data with
    | none => epdf_error_t.EPDF_ERROR_UNKNOWN
    | some _ => epdf_error_t.EPDF_ERROR_UNKNOWN

/-! ## Document lifecycle (`document.c`) -/

/-- The loop of `epdf_document_free` over `page_id < number_of_pages`, from
`page_id` on, `count` iterations.  Reading an entry past the end of the array
is recorded as `invalid_page_read`. -/
def epdf_document_free_pages (functions : epdf_plugin_functions_t)
    (pages : List (Option epdf_page_t)) : Nat → Nat → List lifecycle_event
  | 0, _ => []
  | count + 1, page_id =>
    (match pages.get? page_id with
     | none => [lifecycle_event.invalid_page_read page_id]
     | some page => (epdf_page_free functions page).2)
    ++ epdf_document_free_pages functions pages count (page_id + 1)

/-- Embeds `epdf_document_free`: the returned code and the calls made. -/
def epdf_document_free (document : Option epdf_document_t) :
    epdf_error_t × List lifecycle_event :=
  match document with
  | none => (epdf_error_t.EPDF_ERROR_INVALID_ARGUMENTS, [])
  | some d =>
    match d.plugin with
    | none => (epdf_error_t.EPDF_ERROR_INVALID_ARGUMENTS, [])
    | some plugin =>
      let functions := epdf_plugin_get_functions plugin
      let page_events :=
        match d.pages with
        | none => []
        | some pages => epdf_document_free_pages functions pages d.number_of_pages 0
      match functions.document_free with
      | none =>
        (epdf_error_t.EPDF_ERROR_NOT_IMPLEMENTED,
         page_events ++ [lifecycle_event.document_released])
      | some document_free =>
        (document_free d.data,
         page_events ++ [lifecycle_event.document_free d.data,
                         lifecycle_event.document_released])

/-- A `GFile`: what `g_file_get_path` and `g_file_get_basename` return for it. -/
structure g_file_t where
  path : Option String
  basename : Option String

/-- The `epdf_t` instance as far as `epdf_document_open` uses it: content-type
resolution and the backend registry. -/
structure epdf_t where
  epdf_content_type_guess : String → Option String
  epdf_plugin_manager_get_plugin : String → Option epdf_plugin_t

/-- Answers of the library calls that `epdf_document_open` makes: GLib file
objects, the allocator and the file digest. -/
structure epdf_system_t where
  g_file_new_for_path : String → Option g_file_t
  g_file_new_for_uri : String → g_file_t
  document_memory : Option Nat
  hash_file_sha256 : String → Option (List Nat)
  pages_memory : Nat → Bool
  page_memory : Nat → Bool

/-- The page loop of `epdf_document_open`, `count` iterations before
`number_of_pages` is reached.  The result tells whether every page was built,
and gives the document and the calls made. -/
def epdf_document_open_pages (sys : epdf_system_t) (functions : epdf_plugin_functions_t)
    (address : Nat) : Nat → epdf_document_t → Bool × epdf_document_t × List lifecycle_event
  | 0, d => (true, d, [])
  | count + 1, d =>
    let page_id := d.number_of_pages - (count + 1)
    let r := epdf_page_new functions (sys.page_memory page_id) (some (address, d)) page_id none
    match r.1 with
    | none => (false, d, r.2.2)
    | some page =>
      let d := { d with pages := d.pages.map (fun ps => ps.set page_id (some page)) }
      let width := epdf_page_get_width (some page)
      let d := if d.cell_width < width then { d with cell_width := width } else d
      let height := epdf_page_get_height (some page)
      let d := if d.cell_height < height then { d with cell_height := height } else d
      let rest := epdf_document_open_pages sys functions address count d
      (rest.1, rest.2.1, r.2.2 ++ rest.2.2)

/-- Embeds `epdf_document_open`.  `error` is the optional error parameter
(`none` for `NULL`, otherwise its content).  The result is the returned
document (or `NULL`), the content of `error` after the call, and the calls made
on the backend and the allocator. -/
def epdf_document_open (sys : epdf_system_t) (epdf : Option epdf_t)
    (path uri password : Option String) (error : Option epdf_error_t) :
    Option epdf_document_t × Option epdf_error_t × List lifecycle_event :=
  match epdf, path with
  | none, _ => (none, error, [])
  | some _, none => (none, error, [])
  | some e, some p =>
    match sys.g_file_new_for_path p with
    | none => (none, check_set_error error epdf_error_t.EPDF_ERROR_UNKNOWN, [])
    | some file =>
    match file.path with
    | none => (none, check_set_error error epdf_error_t.EPDF_ERROR_UNKNOWN, [])
    | some real_path =>
    match e.epdf_content_type_guess real_path with
    | none => (none, check_set_error error epdf_error_t.EPDF_ERROR_UNKNOWN, [])
    | some content_type =>
    match e.epdf_plugin_manager_get_plugin content_type with
    | none => (none, check_set_error error epdf_error_t.EPDF_ERROR_UNKNOWN, [])
    | some plugin =>
    match sys.document_memory with
    | none => (none, check_set_error error epdf_error_t.EPDF_ERROR_OUT_OF_MEMORY, [])
    | some address =>
      let document : epdf_document_t :=
        { file_path := some real_path
          uri := uri
          basename :=
            (match uri with
             | none => file.basename
             | some u => (sys.g_file_new_for_uri u).basename)
          hash_sha256 := (sys.hash_file_sha256 real_path).getD (List.replicate 32 0)
          password := password
          current_page_number := 0
          number_of_pages := 0
          zoom := 1
          rotate := 0
          data := none
          adjust_mode := epdf_adjust_mode_t.EPDF_ADJUST_NONE
          page_offset := 0
          cell_width := 0
          cell_height := 0
          view_width := 0
          view_height := 0
          view_ppi := 0
          device_factors := { x := 1, y := 1 }
          pages_per_row := 0
          first_page_column := 0
          page_padding := 0
          position_x := 0
          position_y := 0
          pages := none
          plugin := some plugin }
      let functions := epdf_plugin_get_functions plugin
      match functions.document_open with
      | none => (none, error, (epdf_document_free (some document)).2)
      | some document_open =>
        let r := document_open document.file_path document.password
        let document := { document with number_of_pages := r.2.1, data := r.2.2 }
        if r.1 ≠ epdf_error_t.EPDF_ERROR_OK then
          (none, check_set_error error r.1,
           lifecycle_event.document_open :: (epdf_document_free (some document)).2)
        else if sys.pages_memory document.number_of_pages = false then
          (none, check_set_error error epdf_error_t.EPDF_ERROR_OUT_OF_MEMORY,
           lifecycle_event.document_open :: (epdf_document_free (some document)).2)
        else
          let document :=
            { document with pages := some (List.replicate document.number_of_pages none) }
          let loop :=
            epdf_document_open_pages sys functions address document.number_of_pages document
          if loop.1 = false then
            (none, check_set_error error epdf_error_t.EPDF_ERROR_OUT_OF_MEMORY,
             lifecycle_event.document_open ::
               (loop.2.2 ++ (epdf_document_free (some loop.2.1)).2))
          else
            (some loop.2.1, error, lifecycle_event.document_open :: loop.2.2)

/-! ## Documents in use -/

/-- A call of one of the public setters of `document.h`. -/
inductive setter_call where
  | set_data (data : Option Nat)
  | set_number_of_pages (number_of_pages : Nat)
  | set_current_page_number (current_page : Nat)
  | set_position_x (position_x : ℚ)
  | set_position_y (position_y : ℚ)
  | set_zoom (zoom : ℚ)
  | set_rotation (rotation : Nat)
  | set_adjust_mode (mode : epdf_adjust_mode_t)
  | set_page_offset (page_offset : Nat)
  | set_viewport_width (width : Nat)
  | set_viewport_height (height : Nat)
  | set_viewport_ppi (ppi : ℚ)
  | set_device_factors (x_factor y_factor : ℚ)
  | set_page_layout (page_padding pages_per_row first_page_column : Nat)

/-- The effect of a setter call on a document. -/
def setter_call.run (c : setter_call) (document : Option epdf_document_t) :
    Except c_trap (Option epdf_document_t) :=
  match c with
  | .set_data data => .ok (epdf_document_set_data document data)
  | .set_number_of_pages n => .ok (epdf_document_set_number_of_pages document n)
  | .set_current_page_number n => .ok (epdf_document_set_current_page_number document n)
  | .set_position_x x => .ok (epdf_document_set_position_x document x)
  | .set_position_y y => .ok (epdf_document_set_position_y document y)
  | .set_zoom z => .ok (epdf_document_set_zoom document z)
  | .set_rotation r => .ok (epdf_document_set_rotation document r)
  | .set_adjust_mode m => .ok (epdf_document_set_adjust_mode document m)
  | .set_page_offset o => .ok (epdf_document_set_page_offset document o)
  | .set_viewport_width w => .ok (epdf_document_set_viewport_width document w)
  | .set_viewport_height h => .ok (epdf_document_set_viewport_height document h)
  | .set_viewport_ppi ppi => .ok (epdf_document_set_viewport_ppi document ppi)
  | .set_device_factors x y => .ok (epdf_document_set_device_factors document x y)
  | .set_page_layout pad cols first => epdf_document_set_page_layout document pad cols first

/-- Document states that arise from a successful `epdf_document_open` followed by
any number of completed calls of the public setters. -/
inductive reachable : epdf_document_t → Prop where
  | opened (sys : epdf_system_t) (epdf : Option epdf_t) (path uri password : Option String)
      (error : Option epdf_error_t) (d : epdf_document_t)
      (h : (epdf_document_open sys epdf path uri password error).1 = some d) : reachable d
  | step (d d' : epdf_document_t) (c : setter_call) (hd : reachable d)
      (h : c.run (some d) = .ok (some d')) : reachable d'

/-! ## A concrete backend and session, used to instantiate the results below -/

/-- A backend with two pages (612 x 792 and 595 x 842 points) and no optional
capability beyond opening and closing. -/
def sample_functions : epdf_plugin_functions_t :=
  { document_open := some (fun _ _ => (epdf_error_t.EPDF_ERROR_OK, 2, some 7))
    document_free := some (fun _ => epdf_error_t.EPDF_ERROR_OK)
    document_save_as := none
    document_attachment_save := none
    page_init := some (fun _ index =>
      (epdf_error_t.EPDF_ERROR_OK, if index = 0 then 612 else 595,
       if index = 0 then 792 else 842, some (100 + index)))
    page_clear := some (fun _ _ => epdf_error_t.EPDF_ERROR_OK)
    page_render_cairo := none
    page_image_get_cairo := none
    page_get_text := none
    page_get_label := none }

/-- The backend registry and content-type resolution of the sample session. -/
def sample_epdf : epdf_t :=
  { epdf_content_type_guess := fun _ => some "application/pdf"
    epdf_plugin_manager_get_plugin := fun _ => some { functions := sample_functions } }

/-- Library answers of the sample session: every allocation succeeds. -/
def sample_system : epdf_system_t :=
  { g_file_new_for_path := fun p => some { path := some p, basename := some "a.pdf" }
    g_file_new_for_uri := fun _ => { path := none, basename := some "a.pdf" }
    document_memory := some 4096
    hash_file_sha256 := fun _ => none
    pages_memory := fun _ => true
    page_memory := fun _ => true }

/-- The document that opening `/tmp/a.pdf` in the sample session returns. -/
def sample_document : epdf_document_t :=
  { file_path := some "/tmp/a.pdf"
    uri := none
    basename := some "a.pdf"
    hash_sha256 := List.replicate 32 0
    password := none
    current_page_number := 0
    number_of_pages := 2
    zoom := 1
    rotate := 0
    data := some 7
    adjust_mode := epdf_adjust_mode_t.EPDF_ADJUST_NONE
    page_offset := 0
    cell_width := 612
    cell_height := 842
    view_width := 0
    view_height := 0
    view_ppi := 0
    device_factors := { x := 1, y := 1 }
    pages_per_row := 0
    first_page_column := 0
    page_padding := 0
    position_x := 0
    position_y := 0
    pages := some
      [some { height := 792, width := 612, index := 0, data := some 100, visible := false,
              document := some 4096 },
       some { height := 842, width := 595, index := 1, data := some 101, visible := false,
              document := some 4096 }]
    plugin := some { functions := sample_functions } }

/-- The state obtained from the sample document by the calls
`set_zoom(2)`, `set_rotation(100)`, `set_page_layout(5, 3, 7)`. -/
def sample_document_in_use : epdf_document_t :=
  { sample_document with
    zoom := 2, rotate := 180, page_padding := 5, pages_per_row := 3, first_page_column := 1 }

/-- A pixel transform that reports a cell of height 100 and width 50. -/
def sample_page_calc : epdf_document_t → ℚ → ℚ → Bool → Nat × Nat :=
  fun _ _ _ _ => (100, 50)

/-- A pixel transform that reports a cell of height 1 and width 1. -/
def unit_page_calc : epdf_document_t → ℚ → ℚ → Bool → Nat × Nat :=
  fun _ _ _ _ => (1, 1)

/-- The state obtained from the sample document by the calls
`set_number_of_pages(10)` and `set_page_layout(0, 3, 1)`. -/
def ten_page_document : epdf_document_t :=
  { sample_document with
    number_of_pages := 10, page_padding := 0, pages_per_row := 3, first_page_column := 1 }

/-- The state obtained from the sample document by the calls
`set_number_of_pages(1)` and `set_page_layout(4294967295, 2, 1)`. -/
def wide_padding_document : epdf_document_t :=
  { sample_document with
    number_of_pages := 1, page_padding := 4294967295, pages_per_row := 2,
    first_page_column := 1 }

/-- The sample document after `set_zoom(2)`: its viewport PPI is still 0. -/
def zoomed_document : epdf_document_t :=
  { sample_document with zoom := 2 }

/-- The sample document after `set_zoom(2)` and `set_viewport_ppi(150)`. -/
def zoomed_document_150_ppi : epdf_document_t :=
  { sample_document with zoom := 2, view_ppi := 150 }

/-- The sample document after `set_zoom(2)` and `set_viewport_ppi(DBL_EPSILON)`. -/
def zoomed_document_epsilon_ppi : epdf_document_t :=
  { sample_document with zoom := 2, view_ppi := DBL_EPSILON }

/-- The first page of the sample document. -/
def sample_page : epdf_page_t :=
  { height := 792, width := 612, index := 0, data := some 100, visible := false,
    document := some 4096 }

/-- The session whose registry answers every content type with the backend
`functions`. -/
def session_with (functions : epdf_plugin_functions_t) : epdf_t :=
  { epdf_content_type_guess := fun _ => some "application/pdf"
    epdf_plugin_manager_get_plugin := fun _ => some { functions := functions } }

/-- The sample backend without its `document_open` slot. -/
def no_open_functions : epdf_plugin_functions_t :=
  { sample_functions with document_open := none }

/-- The sample backend without its `page_init` slot. -/
def no_page_init_functions : epdf_plugin_functions_t :=
  { sample_functions with page_init := none }

/-- A backend whose `document_open` succeeds and reports no pages. -/
def empty_document_functions : epdf_plugin_functions_t :=
  { sample_functions with
    document_open := some (fun _ _ => (epdf_error_t.EPDF_ERROR_OK, 0, some 7)) }

/-- A backend with one page whose width and height are the sentinel -1. -/
def unavailable_size_functions : epdf_plugin_functions_t :=
  { sample_functions with
    document_open := some (fun _ _ => (epdf_error_t.EPDF_ERROR_OK, 1, some 7))
    page_init := some (fun _ _ => (epdf_error_t.EPDF_ERROR_OK, -1, -1, some 100)) }

/-- A backend with four pages whose `page_init` fails with Unknown at index 2. -/
def failing_functions : epdf_plugin_functions_t :=
  { sample_functions with
    document_open := some (fun _ _ => (epdf_error_t.EPDF_ERROR_OK, 4, some 7))
    page_init := some (fun _ index =>
      (if index = 2 then epdf_error_t.EPDF_ERROR_UNKNOWN else epdf_error_t.EPDF_ERROR_OK,
       612, 792, some (100 + index))) }

/-! ## Notions used to state the results -/

/-- The first `k` pages of the document are built and `cell_width`,
`cell_height` are the running maxima, from 0, of their widths and heights. -/
def cell_bounds (d : epdf_document_t) (k : Nat) : Prop :=
  ∃ ps : List (Option epdf_page_t), d.pages = some ps ∧ ps.length = d.number_of_pages ∧
    (∀ i, i < k → ∃ p : epdf_page_t, ps.get? i = some (some p) ∧
      p.width ≤ d.cell_width ∧ p.height ≤ d.cell_height) ∧
    0 ≤ d.cell_width ∧ 0 ≤ d.cell_height ∧
    (d.cell_width = 0 ∨ ∃ i, ∃ p : epdf_page_t, i < k ∧ ps.get? i = some (some p) ∧
      p.width = d.cell_width) ∧
    (d.cell_height = 0 ∨ ∃ i, ∃ p : epdf_page_t, i < k ∧ ps.get? i = some (some p) ∧
      p.height = d.cell_height)

/-- The body of the page loop of `epdf_document_open` after a page was built:
the page is stored at `page_id` and the cell size is raised to its extents. -/
def store_page (d : epdf_document_t) (page_id : Nat) (page : epdf_page_t) : epdf_document_t :=
  let d := { d with pages := d.pages.map (fun ps => ps.set page_id (some page)) }
  let width := epdf_page_get_width (some page)
  let d := if d.cell_width < width then { d with cell_width := width } else d
  let height := epdf_page_get_height (some page)
  if d.cell_height < height then { d with cell_height := height } else d

/-- The document returned by opening `/tmp/a.pdf` with the backend
`unavailable_size_functions`: one page of width and height -1. -/
def unavailable_size_document : epdf_document_t :=
  { sample_document with
    number_of_pages := 1
    cell_width := 0
    cell_height := 0
    pages := some
      [some { height := -1, width := -1, index := 0, data := some 100, visible := false,
              document := some 4096 }]
    plugin := some { functions := unavailable_size_functions } }

/-- The page that `epdf_page_new` builds at `index` when the backend's
`page_init` is `page_init` and the document at `address` has backend state
`data`. -/
def initialised_page (page_init : Option Nat → Nat → epdf_error_t × ℚ × ℚ × Option Nat)
    (address : Nat) (data : Option Nat) (index : Nat) : epdf_page_t :=
  { height := (page_init data index).2.2.1
    width := (page_init data index).2.1
    index := index
    data := (page_init data index).2.2.2
    visible := false
    document := some address }

/-- The document `d` is in the state of the page loop of `epdf_document_open`
after `k` of its `n` pages were built: the array holds the first `k` pages and
`NULL` from index `k` on. -/
def built_pages (page_init : Option Nat → Nat → epdf_error_t × ℚ × ℚ × Option Nat)
    (address : Nat) (data : Option Nat) (plugin : epdf_plugin_t) (n k : Nat)
    (d : epdf_document_t) : Prop :=
  d.number_of_pages = n ∧ d.data = data ∧ d.plugin = some plugin ∧
  ∃ ps : List (Option epdf_page_t), d.pages = some ps ∧ ps.length = n ∧
    (∀ i, i < k → ps.get? i = some (some (initialised_page page_init address data i))) ∧
    (∀ i, k ≤ i → i < n → ps.get? i = some none)

/-- The pages cleared through the backend's `page_clear`, in call order, each
with the backend page state that was passed. -/
def cleared_pages (events : List lifecycle_event) : List (Nat × Option Nat) :=
  events.filterMap (fun e =>
    match e with
    | lifecycle_event.page_clear index data => some (index, data)
    | _ => none)

/-- The page objects released with `g_free`, in call order. -/
def released_pages (events : List lifecycle_event) : List Nat :=
  events.filterMap (fun e =>
    match e with
    | lifecycle_event.page_released index => some index
    | _ => none)

/-- The calls of the backend's `document_free` slot, in call order, each with
the backend document state that was passed. -/
def document_frees (events : List lifecycle_event) : List (Option Nat) :=
  events.filterMap (fun e =>
    match e with
    | lifecycle_event.document_free data => some data
    | _ => none)

/-- The second page of the sample document. -/
def sample_second_page : epdf_page_t :=
  { height := 842, width := 595, index := 1, data := some 101, visible := false,
    document := some 4096 }

/-- The document of `epdf_document_open` when its page loop starts: the fields
set from the arguments, the backend's page count and state, and a zeroed page
array. -/
def document_before_pages (sys : epdf_system_t) (file : g_file_t) (real_path : String)
    (uri password : Option String) (plugin : epdf_plugin_t) (number_of_pages : Nat)
    (data : Option Nat) : epdf_document_t :=
  { file_path := some real_path
    uri := uri
    basename :=
      (match uri with
       | none => file.basename
       | some u => (sys.g_file_new_for_uri u).basename)
    hash_sha256 := (sys.hash_file_sha256 real_path).getD (List.replicate 32 0)
    password := password
    current_page_number := 0
    number_of_pages := number_of_pages
    zoom := 1
    rotate := 0
    data := data
    adjust_mode := epdf_adjust_mode_t.EPDF_ADJUST_NONE
    page_offset := 0
    cell_width := 0
    cell_height := 0
    view_width := 0
    view_height := 0
    view_ppi := 0
    device_factors := { x := 1, y := 1 }
    pages_per_row := 0
    first_page_column := 0
    page_padding := 0
    position_x := 0
    position_y := 0
    pages := some (List.replicate number_of_pages none)
    plugin := some plugin }

/-- The sample backend with a `page_get_label` slot that succeeds without
producing a label. -/
def unlabelled_functions : epdf_plugin_functions_t :=
  { sample_functions with
    page_get_label := some (fun _ _ => (epdf_error_t.EPDF_ERROR_OK, none)) }

/-- The sample backend with a `page_get_label` slot that fails with
InvalidPassword. -/
def failing_label_functions : epdf_plugin_functions_t :=
  { sample_functions with
    page_get_label := some (fun _ _ => (epdf_error_t.EPDF_ERROR_INVALID_PASSWORD, none)) }

/-- The sample document after `set_zoom(2)` and `set_viewport_ppi(-96)`. -/
def zoomed_document_negative_ppi : epdf_document_t :=
  { sample_document with zoom := 2, view_ppi := -96 }

/-- The sample document after `set_zoom(-2)` and `set_viewport_ppi(150)`. -/
def mirrored_document_150_ppi : epdf_document_t :=
  { sample_document with zoom := -2, view_ppi := 150 }

/-- The sample session on a system where only the first page can be
allocated. -/
def scarce_system : epdf_system_t :=
  { sample_system with page_memory := fun index => decide (index = 0) }

/-- The row count `nrow` that `epdf_document_get_document_size` computes for a
document with at least one page and one column. -/
def document_size_rows (d : epdf_document_t) : Nat :=
  uint_sub (uint_add (uint_sub (uint_add d.number_of_pages d.first_page_column) 1)
    d.pages_per_row) 1 / d.pages_per_row

/-- Building the page with the given index fails in `epdf_page_new`: the page
cannot be allocated, the backend has no `page_init` slot, or `page_init`
returns a code other than Ok.  `data` is the backend state of the document. -/
def page_construction_fails (sys : epdf_system_t) (functions : epdf_plugin_functions_t)
    (data : Option Nat) (index : Nat) : Prop :=
  sys.page_memory index = false ∨ functions.page_init = none ∨
  ∃ page_init : Option Nat → Nat → epdf_error_t × ℚ × ℚ × Option Nat,
    functions.page_init = some page_init ∧
    (page_init data index).1 ≠ epdf_error_t.EPDF_ERROR_OK

/-! # Results -/

/-- Opening `/tmp/a.pdf` in the sample session succeeds with `sample_document`. -/
theorem sample_open :
    (epdf_document_open sample_system (some sample_epdf) (some "/tmp/a.pdf") none none
      (some epdf_error_t.EPDF_ERROR_OK)).1 = some sample_document := by
  norm_num [epdf_document_open, sample_system, sample_epdf, sample_document,
    epdf_plugin_get_functions, sample_functions, epdf_document_open_pages, epdf_page_new,
    epdf_page_get_width, epdf_page_get_height]
  rfl

/-! ## Rotation -/

/-- The rotation stored by `epdf_document_set_rotation`, as a function of the
request reduced modulo 360. -/
theorem get_set_rotation (d : epdf_document_t) (r : Nat) :
    epdf_document_get_rotation (epdf_document_set_rotation (some d) r) =
      if r % 360 = 0 ∨ 270 < r % 360 then 0
      else if r % 360 ≤ 90 then 90
      else if r % 360 ≤ 180 then 180
      else 270 := by
  unfold epdf_document_set_rotation
  simp only [gt_iff_lt]
  split_ifs <;> rfl

/-- C1: for every rotation request `r`, `epdf_document_set_rotation` stores 0
when `r mod 360` is 0 or lies in (270, 360), 90 when it lies in (0, 90], 180 when
it lies in (90, 180] and 270 when it lies in (180, 270]; in particular 0 gives 0,
45 gives 90, 90 gives 90, 91 gives 180, 270 gives 270, 271 gives 0 and 359 gives 0. -/
theorem set_rotation_bands (d : epdf_document_t) (r : Nat) :
    ((r % 360 = 0 ∨ (270 < r % 360 ∧ r % 360 < 360)) →
        epdf_document_get_rotation (epdf_document_set_rotation (some d) r) = 0) ∧
    ((0 < r % 360 ∧ r % 360 ≤ 90) →
        epdf_document_get_rotation (epdf_document_set_rotation (some d) r) = 90) ∧
    ((90 < r % 360 ∧ r % 360 ≤ 180) →
        epdf_document_get_rotation (epdf_document_set_rotation (some d) r) = 180) ∧
    ((180 < r % 360 ∧ r % 360 ≤ 270) →
        epdf_document_get_rotation (epdf_document_set_rotation (some d) r) = 270) ∧
    epdf_document_get_rotation (epdf_document_set_rotation (some d) 0) = 0 ∧
    epdf_document_get_rotation (epdf_document_set_rotation (some d) 45) = 90 ∧
    epdf_document_get_rotation (epdf_document_set_rotation (some d) 90) = 90 ∧
    epdf_document_get_rotation (epdf_document_set_rotation (some d) 91) = 180 ∧
    epdf_document_get_rotation (epdf_document_set_rotation (some d) 270) = 270 ∧
    epdf_document_get_rotation (epdf_document_set_rotation (some d) 271) = 0 ∧
    epdf_document_get_rotation (epdf_document_set_rotation (some d) 359) = 0 := by
  refine ⟨?_, ?_, ?_, ?_, ?_, ?_, ?_, ?_, ?_, ?_, ?_⟩
  · intro h
    rw [get_set_rotation, if_pos (by omega)]
  · intro h
    rw [get_set_rotation, if_neg (by omega), if_pos (by omega)]
  · intro h
    rw [get_set_rotation, if_neg (by omega), if_neg (by omega), if_pos (by omega)]
  · intro h
    rw [get_set_rotation, if_neg (by omega), if_neg (by omega), if_neg (by omega)]
  all_goals rw [get_set_rotation]; decide

/-- The bands of C1 at the requests 45, 100, 200 and 300 on the sample document. -/
theorem set_rotation_bands_witness :
    epdf_document_get_rotation (epdf_document_set_rotation (some sample_document) 300) = 0 ∧
    epdf_document_get_rotation (epdf_document_set_rotation (some sample_document) 45) = 90 ∧
    epdf_document_get_rotation (epdf_document_set_rotation (some sample_document) 100) = 180 ∧
    epdf_document_get_rotation (epdf_document_set_rotation (some sample_document) 200) = 270 :=
  ⟨(set_rotation_bands sample_document 300).1 (by decide),
   (set_rotation_bands sample_document 45).2.1 (by decide),
   (set_rotation_bands sample_document 100).2.2.1 (by decide),
   (set_rotation_bands sample_document 200).2.2.2.1 (by decide)⟩

/-- C2, as stated, fails: the request `0 + 360 * (-1)` reaches the function as
the `unsigned int` 4294966936, for which 270 is stored, while the request 0
stores 0. -/
theorem set_rotation_wraparound_counterexample :
    to_uint (0 + 360 * (-1)) = 4294966936 ∧
    epdf_document_get_rotation
      (epdf_document_set_rotation (some sample_document) (to_uint (0 + 360 * (-1)))) = 270 ∧
    epdf_document_get_rotation (epdf_document_set_rotation (some sample_document) 0) = 0 := by
  have h : to_uint (0 + 360 * (-1)) = 4294966936 := by decide
  refine ⟨h, ?_, ?_⟩
  · rw [h, get_set_rotation]; decide
  · rw [get_set_rotation]; decide

/-- C2, amended: for every rotation request `r` and every integer `k` such that
`r + 360 * k` is itself a value of `unsigned int` (non-negative and below 2^32),
the request `r + 360 * k` stores the same rotation as the request `r`. -/
theorem set_rotation_periodic (d : epdf_document_t) (r : Nat) (k : Int)
    (h0 : 0 ≤ (r : Int) + 360 * k) (h1 : (r : Int) + 360 * k < (UINT_RANGE : Int)) :
    epdf_document_get_rotation
        (epdf_document_set_rotation (some d) (to_uint ((r : Int) + 360 * k))) =
      epdf_document_get_rotation (epdf_document_set_rotation (some d) r) := by
  have hmod : to_uint ((r : Int) + 360 * k) % 360 = r % 360 := by
    unfold to_uint
    rw [Int.emod_eq_of_lt h0 h1]
    omega
  rw [get_set_rotation, get_set_rotation, hmod]

/-- The periodicity of C2 at `r = 45`, `k = 3` on the sample document. -/
theorem set_rotation_periodic_witness :
    epdf_document_get_rotation
        (epdf_document_set_rotation (some sample_document) (to_uint ((45 : Nat) + 360 * 3))) =
      epdf_document_get_rotation (epdf_document_set_rotation (some sample_document) 45) :=
  set_rotation_periodic sample_document 45 3 (by decide) (by decide)

/-! ## Documents in use: what opening establishes and the setters keep -/

/-- The page loop of `epdf_document_open` leaves the rotation and the device
factors of the document alone. -/
theorem open_pages_frame (sys : epdf_system_t) (functions : epdf_plugin_functions_t)
    (address : Nat) (count : Nat) (d : epdf_document_t) :
    (epdf_document_open_pages sys functions address count d).2.1.rotate = d.rotate ∧
    (epdf_document_open_pages sys functions address count d).2.1.device_factors =
      d.device_factors := by
  induction count generalizing d with
  | zero => simp [epdf_document_open_pages]
  | succ n ih =>
    simp only [epdf_document_open_pages]
    split
    · simp
    · rename_i page hpage
      refine ⟨(ih _).1.trans ?_, (ih _).2.trans ?_⟩ <;> split_ifs <;> rfl

/-- A document returned by `epdf_document_open` has rotation 0 and device
factors (1, 1). -/
theorem open_initial_state (sys : epdf_system_t) (epdf : Option epdf_t)
    (path uri password : Option String) (error : Option epdf_error_t) (d : epdf_document_t)
    (h : (epdf_document_open sys epdf path uri password error).1 = some d) :
    d.rotate = 0 ∧ d.device_factors = { x := 1, y := 1 } := by
  unfold epdf_document_open at h
  split at h
  · simp at h
  · simp at h
  · split at h
    · simp at h
    · split at h
      · simp at h
      · split at h
        · simp at h
        · split at h
          · simp at h
          · split at h
            · simp at h
            · simp only at h
              split at h
              · simp at h
              · split_ifs at h
                simp only [Option.some.injEq] at h
                subst h
                constructor
                · rw [(open_pages_frame _ _ _ _ _).1]
                · rw [(open_pages_frame _ _ _ _ _).2]

/-- The sample document is in use: it is what opening returns in the sample
session. -/
theorem sample_document_reachable : reachable sample_document :=
  reachable.opened sample_system (some sample_epdf) (some "/tmp/a.pdf") none none
    (some epdf_error_t.EPDF_ERROR_OK) sample_document sample_open

/-- A completed setter call keeps the rotation among 0, 90, 180, 270. -/
theorem setter_keeps_rotation (c : setter_call) (d d' : epdf_document_t)
    (h : c.run (some d) = .ok (some d'))
    (hd : d.rotate = 0 ∨ d.rotate = 90 ∨ d.rotate = 180 ∨ d.rotate = 270) :
    d'.rotate = 0 ∨ d'.rotate = 90 ∨ d'.rotate = 180 ∨ d'.rotate = 270 := by
  cases c with
  | set_rotation r =>
    have hg := get_set_rotation d r
    simp only [setter_call.run, Except.ok.injEq] at h
    rw [h] at hg
    simp only [epdf_document_get_rotation] at hg
    rw [hg]
    split_ifs <;> simp
  | set_page_layout pad cols first =>
    simp only [setter_call.run, epdf_document_set_page_layout] at h
    split_ifs at h <;> simp only [Except.ok.injEq, Option.some.injEq] at h <;> subst h <;>
      exact hd
  | set_device_factors x y =>
    simp only [setter_call.run, epdf_document_set_device_factors, Except.ok.injEq] at h
    split_ifs at h <;> simp only [Option.some.injEq] at h <;> subst h <;> exact hd
  | _ =>
    simp only [setter_call.run, epdf_document_set_data, epdf_document_set_number_of_pages,
      epdf_document_set_current_page_number, epdf_document_set_position_x,
      epdf_document_set_position_y, epdf_document_set_zoom, epdf_document_set_adjust_mode,
      epdf_document_set_page_offset, epdf_document_set_viewport_width,
      epdf_document_set_viewport_height, epdf_document_set_viewport_ppi,
      Except.ok.injEq, Option.some.injEq] at h
    subst h
    exact hd

/-- C3: in every document state reached from a successful `epdf_document_open`
by any sequence of calls of the public setters, `epdf_document_get_rotation`
returns one of 0, 90, 180, 270. -/
theorem rotation_invariant (d : epdf_document_t) (h : reachable d) :
    epdf_document_get_rotation (some d) = 0 ∨ epdf_document_get_rotation (some d) = 90 ∨
    epdf_document_get_rotation (some d) = 180 ∨ epdf_document_get_rotation (some d) = 270 := by
  simp only [epdf_document_get_rotation]
  induction h with
  | opened sys epdf path uri password error d h =>
    exact Or.inl (open_initial_state sys epdf path uri password error d h).1
  | step d d' c _ h ih => exact setter_keeps_rotation c d d' h ih

/-- The state `sample_document_in_use` is reached by three setter calls. -/
theorem sample_document_in_use_reachable : reachable sample_document_in_use := by
  refine reachable.step _ _ (setter_call.set_page_layout 5 3 7)
    (reachable.step _ _ (setter_call.set_rotation 100)
      (reachable.step _ _ (setter_call.set_zoom 2) sample_document_reachable rfl) rfl) ?_
  simp [setter_call.run, epdf_document_set_page_layout, sample_document_in_use,
    uint_add, uint_sub, UINT_RANGE]

/-- The invariant of C3 on a state reached from the sample document. -/
theorem rotation_invariant_witness :
    epdf_document_get_rotation (some sample_document_in_use) = 0 ∨
    epdf_document_get_rotation (some sample_document_in_use) = 90 ∨
    epdf_document_get_rotation (some sample_document_in_use) = 180 ∨
    epdf_document_get_rotation (some sample_document_in_use) = 270 :=
  rotation_invariant sample_document_in_use sample_document_in_use_reachable

/-! ## Device factors -/

/-- C4, as stated, fails: `x = 2^-53` and `y = 1` are both non-zero, yet the
request is rejected and the factors read back are the previous ones, (1, 1). -/
theorem device_factors_roundtrip_counterexample :
    (1 / 9007199254740992 : ℚ) ≠ 0 ∧ (1 : ℚ) ≠ 0 ∧
    epdf_document_get_device_factors
        (epdf_document_set_device_factors (some sample_document) (1 / 9007199254740992) 1) =
      { x := 1, y := 1 } ∧
    epdf_document_get_device_factors
        (epdf_document_set_device_factors (some sample_document) (1 / 9007199254740992) 1) ≠
      { x := 1 / 9007199254740992, y := 1 } := by
  have h : epdf_document_get_device_factors
      (epdf_document_set_device_factors (some sample_document) (1 / 9007199254740992) 1) =
      { x := 1, y := 1 } := by
    norm_num [epdf_document_set_device_factors, epdf_document_get_device_factors,
      DBL_EPSILON, sample_document, abs_lt]
  refine ⟨by norm_num, by norm_num, h, ?_⟩
  rw [h]
  intro hne
  have hx := congrArg epdf_device_factors_t.x hne
  norm_num at hx

/-- C4, amended: for every non-null document and every pair `(x, y)` whose
magnitudes are both at least `DBL_EPSILON`, `epdf_document_set_device_factors`
followed by `epdf_document_get_device_factors` returns exactly `(x, y)`. -/
theorem device_factors_roundtrip (d : epdf_document_t) (x y : ℚ)
    (hx : DBL_EPSILON ≤ |x|) (hy : DBL_EPSILON ≤ |y|) :
    epdf_document_get_device_factors (epdf_document_set_device_factors (some d) x y) =
      { x := x, y := y } := by
  have hxy : ¬ (|x| < DBL_EPSILON ∨ |y| < DBL_EPSILON) := by
    rw [not_or]
    exact ⟨not_lt.mpr hx, not_lt.mpr hy⟩
  simp only [epdf_document_set_device_factors, if_neg hxy, epdf_document_get_device_factors]

/-- The round trip of C4 at `(2, -3/2)` on the sample document. -/
theorem device_factors_roundtrip_witness :
    epdf_document_get_device_factors
        (epdf_document_set_device_factors (some sample_document) 2 (-3 / 2)) =
      { x := 2, y := -3 / 2 } :=
  device_factors_roundtrip sample_document 2 (-3 / 2)
    (by norm_num [DBL_EPSILON]) (by norm_num [DBL_EPSILON, abs_of_neg])

/-- C5: a call `epdf_document_set_device_factors(x, y)` in which `|x|` or `|y|`
is below the epsilon changes nothing: the document after the call, with both
device factors and every other field, is the document before the call. -/
theorem set_device_factors_rejected (document : Option epdf_document_t) (x y : ℚ)
    (h : |x| < DBL_EPSILON ∨ |y| < DBL_EPSILON) :
    epdf_document_set_device_factors document x y = document := by
  cases document with
  | none => rfl
  | some d =>
    simp only [epdf_document_set_device_factors, if_pos h]

/-- The rejection of C5 at `(0, 2)` on a document in use. -/
theorem set_device_factors_rejected_witness :
    epdf_document_set_device_factors (some sample_document_in_use) 0 2 =
      some sample_document_in_use :=
  set_device_factors_rejected (some sample_document_in_use) 0 2
    (Or.inl (by norm_num [DBL_EPSILON]))

/-- A completed setter call keeps both device factors non-zero. -/
theorem setter_keeps_device_factors (c : setter_call) (d d' : epdf_document_t)
    (h : c.run (some d) = .ok (some d'))
    (hd : d.device_factors.x ≠ 0 ∧ d.device_factors.y ≠ 0) :
    d'.device_factors.x ≠ 0 ∧ d'.device_factors.y ≠ 0 := by
  cases c with
  | set_rotation r =>
    simp only [setter_call.run, epdf_document_set_rotation, Except.ok.injEq] at h
    split_ifs at h <;> simp only [Option.some.injEq] at h <;> subst h <;> exact hd
  | set_page_layout pad cols first =>
    simp only [setter_call.run, epdf_document_set_page_layout] at h
    split_ifs at h <;> simp only [Except.ok.injEq, Option.some.injEq] at h <;> subst h <;>
      exact hd
  | set_device_factors x y =>
    simp only [setter_call.run, epdf_document_set_device_factors, Except.ok.injEq] at h
    split_ifs at h with hxy
    · simp only [Option.some.injEq] at h
      subst h
      exact hd
    · simp only [Option.some.injEq] at h
      subst h
      rw [not_or, not_lt, not_lt] at hxy
      have hpos : (0 : ℚ) < DBL_EPSILON := by norm_num [DBL_EPSILON]
      exact ⟨abs_pos.mp (lt_of_lt_of_le hpos hxy.1), abs_pos.mp (lt_of_lt_of_le hpos hxy.2)⟩
  | _ =>
    simp only [setter_call.run, epdf_document_set_data, epdf_document_set_number_of_pages,
      epdf_document_set_current_page_number, epdf_document_set_position_x,
      epdf_document_set_position_y, epdf_document_set_zoom, epdf_document_set_adjust_mode,
      epdf_document_set_page_offset, epdf_document_set_viewport_width,
      epdf_document_set_viewport_height, epdf_document_set_viewport_ppi,
      Except.ok.injEq, Option.some.injEq] at h
    subst h
    exact hd

/-- C6: `epdf_document_get_device_factors` never returns a zero component: for a
null document it returns (1, 1), and in every document state reached from a
successful `epdf_document_open` by any sequence of setter calls, calls of
`epdf_document_set_device_factors` among them, both returned factors are
non-zero. -/
theorem device_factors_nonzero :
    epdf_document_get_device_factors none = { x := 1, y := 1 } ∧
    ∀ d : epdf_document_t, reachable d →
      (epdf_document_get_device_factors (some d)).x ≠ 0 ∧
      (epdf_document_get_device_factors (some d)).y ≠ 0 := by
  refine ⟨rfl, ?_⟩
  intro d h
  simp only [epdf_document_get_device_factors]
  induction h with
  | opened sys epdf path uri password error d h =>
    rw [(open_initial_state sys epdf path uri password error d h).2]
    norm_num
  | step d d' c _ h ih => exact setter_keeps_device_factors c d d' h ih

/-- The invariant of C6 on a state reached from the sample document. -/
theorem device_factors_nonzero_witness :
    (epdf_document_get_device_factors (some sample_document_in_use)).x ≠ 0 ∧
    (epdf_document_get_device_factors (some sample_document_in_use)).y ≠ 0 :=
  device_factors_nonzero.2 sample_document_in_use sample_document_in_use_reachable

/-! ## Page layout -/

/-- C7: for `cols >= 1`, `epdf_document_set_page_layout(pad, cols, first_col)`
completes and stores `page_padding = pad`, `pages_per_row = cols`, and as
`first_page_column` the value 1 when `first_col = 0`, `first_col` itself when
`1 <= first_col <= cols`, and `((first_col - 1) mod cols) + 1` when
`first_col > cols`. -/
theorem set_page_layout_normalises (d : epdf_document_t) (pad cols first_col : Nat)
    (hc : 1 ≤ cols) (hcu : cols < UINT_RANGE) (hfu : first_col < UINT_RANGE) :
    ∃ d' : epdf_document_t,
      epdf_document_set_page_layout (some d) pad cols first_col = .ok (some d') ∧
      d'.page_padding = pad ∧ d'.pages_per_row = cols ∧
      (first_col = 0 → d'.first_page_column = 1) ∧
      (1 ≤ first_col ∧ first_col ≤ cols → d'.first_page_column = first_col) ∧
      (cols < first_col → d'.first_page_column = (first_col - 1) % cols + 1) := by
  unfold UINT_RANGE at hcu hfu
  simp only [epdf_document_set_page_layout]
  by_cases h0 : first_col < 1
  · rw [if_pos h0]
    exact ⟨_, rfl, rfl, rfl, fun _ => rfl, fun h => by omega, fun h => by omega⟩
  · rw [if_neg h0]
    by_cases h1 : first_col > cols
    · rw [if_pos h1, if_neg (by omega)]
      refine ⟨_, rfl, rfl, rfl, fun h => by omega, fun h => by omega, fun _ => ?_⟩
      have hlt : (first_col - 1) % cols < cols := Nat.mod_lt _ (by omega)
      have hsub : uint_sub first_col 1 = first_col - 1 := by
        unfold uint_sub UINT_RANGE
        omega
      show uint_add (uint_sub first_col 1 % cols) 1 = (first_col - 1) % cols + 1
      rw [hsub]
      unfold uint_add UINT_RANGE
      omega
    · rw [if_neg h1]
      exact ⟨_, rfl, rfl, rfl, fun h => by omega, fun _ => rfl, fun h => by omega⟩

/-- The examples of C7 on the sample document: `cols = 4`, `first_col = 6`
stores 2 together with the padding and the column count. -/
theorem set_page_layout_normalises_witness :
    ∃ d' : epdf_document_t,
      epdf_document_set_page_layout (some sample_document) 5 4 6 = .ok (some d') ∧
      d'.page_padding = 5 ∧ d'.pages_per_row = 4 ∧ d'.first_page_column = 2 := by
  obtain ⟨d', h, hpad, hcols, _, _, hwrap⟩ :=
    set_page_layout_normalises sample_document 5 4 6 (by decide) (by decide) (by decide)
  exact ⟨d', h, hpad, hcols, hwrap (by decide)⟩

/-- C8 fails on the code for `pages_per_row = 0`: the call
`epdf_document_set_page_layout(0, 0, 1)` evaluates `(1 - 1) % 0` and does not
complete, and the call `epdf_document_set_page_layout(0, 0, 0)` stores
`first_page_column = 1` above `pages_per_row = 0`. -/
theorem set_page_layout_zero_columns :
    epdf_document_set_page_layout (some sample_document) 0 0 1 =
      .error c_trap.division_by_zero ∧
    ∃ d' : epdf_document_t,
      epdf_document_set_page_layout (some sample_document) 0 0 0 = .ok (some d') ∧
      d'.pages_per_row = 0 ∧ d'.first_page_column = 1 ∧
      ¬ d'.first_page_column ≤ d'.pages_per_row := by
  refine ⟨by simp [epdf_document_set_page_layout],
    { sample_document with page_padding := 0, pages_per_row := 0, first_page_column := 1 },
    ?_, rfl, rfl, by decide⟩
  simp only [epdf_document_set_page_layout]
  rw [if_pos (by decide)]

/-! ## Document size -/

/-- Rounding-up division: `(m + c - 1) / c` is the ceiling of `m / c`. -/
theorem add_pred_div_eq_ceil (m c : Nat) (hm : 1 ≤ m) (hc : 1 ≤ c) :
    (m + c - 1) / c = ⌈(m : ℚ) / (c : ℚ)⌉₊ := by
  have hcpos : (0 : ℚ) < (c : ℚ) := by exact_mod_cast hc
  have hdm := Nat.div_add_mod (m + c - 1) c
  have hmod := Nat.mod_lt (m + c - 1) (show c > 0 by omega)
  generalize hq : (m + c - 1) / c = q at hdm
  generalize (m + c - 1) % c = r at hdm hmod
  have hq1 : 1 ≤ q := by
    rcases Nat.eq_zero_or_pos q with h0 | h0
    · subst h0
      simp at hdm
      omega
    · exact h0
  obtain ⟨p, rfl⟩ : ∃ p, q = p + 1 := ⟨q - 1, by omega⟩
  have hmul : c * (p + 1) = c * p + c := by ring
  have hlow : c * p < m := by omega
  have hhigh : m ≤ c * (p + 1) := by omega
  symm
  rw [Nat.ceil_eq_iff (by omega)]
  constructor
  · rw [lt_div_iff₀ hcpos]
    have : ((c * p : ℕ) : ℚ) < (m : ℚ) := by exact_mod_cast hlow
    push_cast at this ⊢
    linarith
  · rw [div_le_iff₀ hcpos]
    have : ((m : ℕ) : ℚ) ≤ ((c * (p + 1) : ℕ) : ℚ) := by exact_mod_cast hhigh
    push_cast at this ⊢
    linarith

/-- The row count of `epdf_document_get_document_size` when its sum does not
wrap around. -/
theorem row_sum_no_wrap (npag c0 ncol : Nat) (h1 : 1 ≤ npag) (h2 : 1 ≤ c0) (h3 : 1 ≤ ncol)
    (hs : npag + c0 + ncol - 2 < UINT_RANGE) :
    uint_sub (uint_add (uint_sub (uint_add npag c0) 1) ncol) 1 = (npag + c0 - 1) + ncol - 1 := by
  unfold uint_sub uint_add
  unfold UINT_RANGE at *
  omega

/-- Unsigned `a * b + c * d` is the exact value reduced modulo 2^32. -/
theorem uint_add_mul (a b c e : Nat) :
    uint_add (uint_mul a b) (uint_mul c e) = (a * b + c * e) % UINT_RANGE := by
  unfold uint_add uint_mul
  exact (Nat.add_mod _ _ _).symm

/-- C9, as stated, fails: with one page, two columns, first column 1, padding
4294967295 and a cell of 1 x 1 pixels the returned width is 1, not
`2 * 1 + (2 - 1) * 4294967295 = 4294967297`: the sum wraps around at 2^32. -/
theorem document_size_wraparound_counterexample :
    epdf_document_get_cell_size unit_page_calc (some wide_padding_document) (some 0) (some 0) =
      (some 1, some 1) ∧
    epdf_document_get_document_size unit_page_calc (some wide_padding_document)
      (some 0) (some 0) = (some 1, some 1) ∧
    wide_padding_document.pages_per_row * 1 +
      (wide_padding_document.pages_per_row - 1) * wide_padding_document.page_padding =
      4294967297 := by
  refine ⟨rfl, ?_, by decide⟩
  simp [epdf_document_get_document_size, epdf_document_get_number_of_pages,
    epdf_document_get_pages_per_row, epdf_document_get_first_page_column,
    epdf_document_get_page_padding, epdf_document_get_cell_size, unit_page_calc,
    wide_padding_document, uint_add, uint_sub, uint_mul, UINT_RANGE]

/-- C9, amended: for a document with `pages >= 1`, `cols = pages_per_row >= 1`,
`first_col = first_page_column` in `[1, cols]` and padding `pad`, such that
`pages + first_col + cols - 2` is below 2^32, `epdf_document_get_document_size`
returns `width = (cols * cw + (cols - 1) * pad) mod 2^32` and
`height = (rows * ch + (rows - 1) * pad) mod 2^32`, where `(ch, cw)` is the cell
size returned by `epdf_document_get_cell_size` and
`rows = ceil((pages + first_col - 1) / cols)`; these are the exact values
`cols * cw + (cols - 1) * pad` and `rows * ch + (rows - 1) * pad` whenever those
are below 2^32. -/
theorem document_size_formula
    (page_calc_height_width : epdf_document_t → ℚ → ℚ → Bool → Nat × Nat)
    (d : epdf_document_t) (h w ch cw : Nat)
    (hp : 1 ≤ d.number_of_pages) (hc : 1 ≤ d.pages_per_row)
    (hf1 : 1 ≤ d.first_page_column) (_hf2 : d.first_page_column ≤ d.pages_per_row)
    (hs : d.number_of_pages + d.first_page_column + d.pages_per_row - 2 < UINT_RANGE)
    (hcell : epdf_document_get_cell_size page_calc_height_width (some d) (some 0) (some 0) =
      (some ch, some cw)) :
    epdf_document_get_document_size page_calc_height_width (some d) (some h) (some w) =
      (some ((⌈((d.number_of_pages + d.first_page_column - 1 : ℕ) : ℚ) /
                (d.pages_per_row : ℚ)⌉₊ * ch +
              (⌈((d.number_of_pages + d.first_page_column - 1 : ℕ) : ℚ) /
                (d.pages_per_row : ℚ)⌉₊ - 1) * d.page_padding) % UINT_RANGE),
       some ((d.pages_per_row * cw + (d.pages_per_row - 1) * d.page_padding) % UINT_RANGE)) ∧
    (⌈((d.number_of_pages + d.first_page_column - 1 : ℕ) : ℚ) / (d.pages_per_row : ℚ)⌉₊ * ch +
        (⌈((d.number_of_pages + d.first_page_column - 1 : ℕ) : ℚ) /
          (d.pages_per_row : ℚ)⌉₊ - 1) * d.page_padding < UINT_RANGE →
      d.pages_per_row * cw + (d.pages_per_row - 1) * d.page_padding < UINT_RANGE →
      epdf_document_get_document_size page_calc_height_width (some d) (some h) (some w) =
        (some (⌈((d.number_of_pages + d.first_page_column - 1 : ℕ) : ℚ) /
                (d.pages_per_row : ℚ)⌉₊ * ch +
              (⌈((d.number_of_pages + d.first_page_column - 1 : ℕ) : ℚ) /
                (d.pages_per_row : ℚ)⌉₊ - 1) * d.page_padding),
         some (d.pages_per_row * cw + (d.pages_per_row - 1) * d.page_padding))) := by
  have hrows : uint_sub (uint_add (uint_sub (uint_add d.number_of_pages d.first_page_column) 1)
      d.pages_per_row) 1 / d.pages_per_row =
      ⌈((d.number_of_pages + d.first_page_column - 1 : ℕ) : ℚ) / (d.pages_per_row : ℚ)⌉₊ := by
    rw [row_sum_no_wrap _ _ _ hp hf1 hc hs]
    exact add_pred_div_eq_ceil _ _ (by omega) hc
  generalize ⌈((d.number_of_pages + d.first_page_column - 1 : ℕ) : ℚ) /
    (d.pages_per_row : ℚ)⌉₊ = rows at hrows ⊢
  have hrows1 : 1 ≤ rows := by
    rw [← hrows, row_sum_no_wrap _ _ _ hp hf1 hc hs]
    exact (Nat.le_div_iff_mul_le (by omega)).mpr (by omega)
  have hrowsu : rows < UINT_RANGE := by
    rw [← hrows, row_sum_no_wrap _ _ _ hp hf1 hc hs]
    exact lt_of_le_of_lt (Nat.div_le_self _ _) (by omega)
  have hsubr : uint_sub rows 1 = rows - 1 := by
    unfold uint_sub
    unfold UINT_RANGE at *
    omega
  have hsubc : uint_sub d.pages_per_row 1 = d.pages_per_row - 1 := by
    unfold uint_sub
    unfold UINT_RANGE at *
    omega
  have hsize : epdf_document_get_document_size page_calc_height_width (some d) (some h)
      (some w) =
      (some ((rows * ch + (rows - 1) * d.page_padding) % UINT_RANGE),
       some ((d.pages_per_row * cw + (d.pages_per_row - 1) * d.page_padding) % UINT_RANGE)) := by
    simp only [epdf_document_get_document_size, epdf_document_get_number_of_pages,
      epdf_document_get_pages_per_row, epdf_document_get_first_page_column,
      epdf_document_get_page_padding]
    rw [if_neg (by omega), hcell, hrows]
    simp only [Option.getD_some, hsubr, hsubc, uint_add_mul]
  refine ⟨hsize, fun hh hw => ?_⟩
  rw [hsize, Nat.mod_eq_of_lt hh, Nat.mod_eq_of_lt hw]

/-- The example of C9: 10 pages, 3 columns, first column 1, no padding and a
cell of height 100 and width 50 give 4 rows, width 150 and height 400. -/
theorem document_size_formula_witness :
    ⌈((ten_page_document.number_of_pages + ten_page_document.first_page_column - 1 : ℕ) : ℚ) /
      (ten_page_document.pages_per_row : ℚ)⌉₊ = 4 ∧
    epdf_document_get_document_size sample_page_calc (some ten_page_document)
      (some 0) (some 0) = (some 400, some 150) := by
  have hrows : ⌈((ten_page_document.number_of_pages +
      ten_page_document.first_page_column - 1 : ℕ) : ℚ) /
      (ten_page_document.pages_per_row : ℚ)⌉₊ = 4 := by
    rw [Nat.ceil_eq_iff (by decide)]
    norm_num [ten_page_document]
  have hthm := (document_size_formula sample_page_calc ten_page_document 0 0 100 50
    (by decide) (by decide) (by decide) (by decide) (by decide) rfl).1
  rw [hrows] at hthm
  exact ⟨hrows, hthm⟩

/-- C10, as stated, fails: the freshly opened sample document has
`pages_per_row = 0`, and with output variables holding 7 and 9 the call hands
back 7 and 9, not 0 and 0. -/
theorem document_size_degenerate_counterexample :
    sample_document.pages_per_row = 0 ∧
    epdf_document_get_document_size sample_page_calc (some sample_document)
      (some 7) (some 9) = (some 7, some 9) ∧
    epdf_document_get_document_size sample_page_calc (some sample_document)
      (some 7) (some 9) ≠ (some 0, some 0) := by
  have h : epdf_document_get_document_size sample_page_calc (some sample_document)
      (some 7) (some 9) = (some 7, some 9) := by
    simp [epdf_document_get_document_size, epdf_document_get_pages_per_row, sample_document]
  refine ⟨rfl, h, ?_⟩
  rw [h]
  decide

/-- C10, amended: for every document with `number_of_pages = 0` or
`pages_per_row = 0`, `epdf_document_get_document_size` writes nothing: the
height and width variables hold after the call what they held before it (so
the size reads as zero exactly when the caller had set both to zero). -/
theorem document_size_degenerate
    (page_calc_height_width : epdf_document_t → ℚ → ℚ → Bool → Nat × Nat)
    (d : epdf_document_t) (height width : Option Nat)
    (h : d.number_of_pages = 0 ∨ d.pages_per_row = 0) :
    epdf_document_get_document_size page_calc_height_width (some d) height width =
      (height, width) := by
  cases height with
  | none => rfl
  | some hv =>
    cases width with
    | none => rfl
    | some wv =>
      simp only [epdf_document_get_document_size, epdf_document_get_number_of_pages,
        epdf_document_get_pages_per_row]
      rw [if_pos h]

/-- The degenerate case of C10 on the freshly opened sample document, with the
output variables set to zero and set to 7 and 9. -/
theorem document_size_degenerate_witness :
    epdf_document_get_document_size sample_page_calc (some sample_document)
      (some 0) (some 0) = (some 0, some 0) ∧
    epdf_document_get_document_size unit_page_calc (some sample_document)
      (some 7) (some 9) = (some 7, some 9) :=
  ⟨document_size_degenerate sample_page_calc sample_document (some 0) (some 0) (Or.inr rfl),
   document_size_degenerate unit_page_calc sample_document (some 7) (some 9) (Or.inr rfl)⟩

/-! ## Scale -/

/-- C11, as stated, fails: with `zoom = 2` and `view_ppi = DBL_EPSILON` the PPI is
not greater than the epsilon, yet the scale is `2 * DBL_EPSILON / 72` and not
`2 * 100 / 72`. -/
theorem scale_at_epsilon_counterexample :
    ¬ (DBL_EPSILON < zoomed_document_epsilon_ppi.view_ppi) ∧
    epdf_document_get_scale (some zoomed_document_epsilon_ppi) = 2 * DBL_EPSILON / 72 ∧
    epdf_document_get_scale (some zoomed_document_epsilon_ppi) ≠ 2 * 100 / 72 := by
  have h : epdf_document_get_scale (some zoomed_document_epsilon_ppi) =
      2 * DBL_EPSILON / 72 := by
    simp [epdf_document_get_scale, zoomed_document_epsilon_ppi]
  refine ⟨by simp [zoomed_document_epsilon_ppi], h, ?_⟩
  rw [h]
  norm_num [DBL_EPSILON]

/-- C11, amended: for every non-null document, `epdf_document_get_scale` returns
`zoom * view_ppi / 72` when `view_ppi` is at least the epsilon and
`zoom * 100 / 72` when `view_ppi` is below the epsilon (over exact rational
arithmetic). -/
theorem scale_formula (d : epdf_document_t) :
    (DBL_EPSILON ≤ d.view_ppi → epdf_document_get_scale (some d) = d.zoom * d.view_ppi / 72) ∧
    (d.view_ppi < DBL_EPSILON → epdf_document_get_scale (some d) = d.zoom * 100 / 72) := by
  constructor
  · intro h
    simp only [epdf_document_get_scale, if_neg (not_lt.mpr h)]
  · intro h
    simp only [epdf_document_get_scale, if_pos h]

/-- The examples of C11: `zoom = 2` gives `200 / 72` at `view_ppi = 0` and
`300 / 72` at `view_ppi = 150`. -/
theorem scale_formula_witness :
    epdf_document_get_scale (some zoomed_document) = 200 / 72 ∧
    epdf_document_get_scale (some zoomed_document_150_ppi) = 300 / 72 := by
  constructor
  · rw [(scale_formula zoomed_document).2 (by norm_num [zoomed_document, sample_document,
      DBL_EPSILON])]
    norm_num [zoomed_document]
  · rw [(scale_formula zoomed_document_150_ppi).1 (by norm_num [zoomed_document_150_ppi,
      DBL_EPSILON])]
    norm_num [zoomed_document_150_ppi]

/-! ## Dispatch through the capability table -/

/-- C18, as stated, fails: the backend of the sample page has no
`page_image_get_cairo` slot, yet `epdf_page_image_get_cairo` called with a null
image writes InvalidArguments, not NotImplemented, through `error`. -/
theorem image_null_counterexample :
    sample_functions.page_image_get_cairo = none ∧
    epdf_page_image_get_cairo sample_functions (some sample_page) none
        (some epdf_error_t.EPDF_ERROR_OK) =
      (none, some epdf_error_t.EPDF_ERROR_INVALID_ARGUMENTS) ∧
    epdf_error_t.EPDF_ERROR_INVALID_ARGUMENTS ≠ epdf_error_t.EPDF_ERROR_NOT_IMPLEMENTED := by
  refine ⟨rfl, rfl, by decide⟩

/-- C18, amended: for a non-null document with a backend, and a non-null page
with a document, an empty slot makes the dispatched operation answer
NotImplemented: `epdf_document_attachment_save` and `epdf_document_save_as`
(with a non-null path) and `epdf_page_render` (with a non-null surface) return
it, and `epdf_page_get_text`, `epdf_page_image_get_cairo` (with a non-null
image) and `epdf_page_get_label` return `NULL` and write it through `error`. -/
theorem empty_slot_not_implemented (d : epdf_document_t) (plugin : epdf_plugin_t)
    (functions : epdf_plugin_functions_t) (p : epdf_page_t) (address : Nat)
    (hplugin : d.plugin = some plugin) (hdocument : p.document = some address) :
    ((epdf_plugin_get_functions plugin).document_attachment_save = none →
      ∀ attachment file : Option String,
        epdf_document_attachment_save (some d) attachment file =
          epdf_error_t.EPDF_ERROR_NOT_IMPLEMENTED) ∧
    ((epdf_plugin_get_functions plugin).document_save_as = none →
      ∀ path : String,
        epdf_document_save_as (some d) (some path) = epdf_error_t.EPDF_ERROR_NOT_IMPLEMENTED) ∧
    (functions.page_render_cairo = none →
      ∀ (cairo : Nat) (printing : Bool),
        epdf_page_render functions (some p) (some cairo) printing =
          epdf_error_t.EPDF_ERROR_NOT_IMPLEMENTED) ∧
    (functions.page_get_text = none →
      ∀ (rectangle : epdf_rectangle_t) (e : epdf_error_t),
        epdf_page_get_text functions (some p) rectangle (some e) =
          (none, some epdf_error_t.EPDF_ERROR_NOT_IMPLEMENTED)) ∧
    (functions.page_image_get_cairo = none →
      ∀ (image : Nat) (e : epdf_error_t),
        epdf_page_image_get_cairo functions (some p) (some image) (some e) =
          (none, some epdf_error_t.EPDF_ERROR_NOT_IMPLEMENTED)) ∧
    (functions.page_get_label = none →
      ∀ e : epdf_error_t,
        epdf_page_get_label functions (some p) (some e) =
          (none, some epdf_error_t.EPDF_ERROR_NOT_IMPLEMENTED)) := by
  refine ⟨?_, ?_, ?_, ?_, ?_, ?_⟩
  · intro h attachment file
    simp only [epdf_document_attachment_save, hplugin, h]
  · intro h path
    simp only [epdf_document_save_as, hplugin, h]
  · intro h cairo printing
    simp only [epdf_page_render, hdocument, h]
  · intro h rectangle e
    simp only [epdf_page_get_text, hdocument, h, check_set_error]
  · intro h image e
    simp only [epdf_page_image_get_cairo, hdocument, h, check_set_error]
  · intro h e
    simp only [epdf_page_get_label, hdocument, h, check_set_error]

/-- C18 on the sample document and its first page, whose backend has none of
the six slots. -/
theorem empty_slot_not_implemented_witness :
    epdf_document_attachment_save (some sample_document) (some "a.txt") (some "/tmp/a.txt") =
      epdf_error_t.EPDF_ERROR_NOT_IMPLEMENTED ∧
    epdf_document_save_as (some sample_document) (some "/tmp/b.pdf") =
      epdf_error_t.EPDF_ERROR_NOT_IMPLEMENTED ∧
    epdf_page_render sample_functions (some sample_page) (some 1) false =
      epdf_error_t.EPDF_ERROR_NOT_IMPLEMENTED ∧
    epdf_page_get_text sample_functions (some sample_page) { x1 := 0, y1 := 0, x2 := 1, y2 := 1 }
        (some epdf_error_t.EPDF_ERROR_OK) =
      (none, some epdf_error_t.EPDF_ERROR_NOT_IMPLEMENTED) ∧
    epdf_page_image_get_cairo sample_functions (some sample_page) (some 3)
        (some epdf_error_t.EPDF_ERROR_OK) =
      (none, some epdf_error_t.EPDF_ERROR_NOT_IMPLEMENTED) ∧
    epdf_page_get_label sample_functions (some sample_page) (some epdf_error_t.EPDF_ERROR_OK) =
      (none, some epdf_error_t.EPDF_ERROR_NOT_IMPLEMENTED) :=
  have h := empty_slot_not_implemented sample_document { functions := sample_functions }
    sample_functions sample_page 4096 rfl rfl
  ⟨h.1 rfl _ _, h.2.1 rfl _, h.2.2.1 rfl _ _, h.2.2.2.1 rfl _ _, h.2.2.2.2.1 rfl _ _,
   h.2.2.2.2.2 rfl _⟩

/-- C19 fails on the code: whatever the other slots are, with `pdf_page_clear`
as the `page_clear` slot `epdf_page_free` returns `EPDF_ERROR_UNKNOWN` for every
page that has a document, whatever its index and backend state, and so never
`EPDF_ERROR_OK`. -/
theorem pdf_page_free_returns_unknown (functions : epdf_plugin_functions_t)
    (p : epdf_page_t) (address : Nat) :
    (epdf_page_free
        { functions with page_clear := some (fun index data => pdf_page_clear (some index) data) }
        (some { p with document := some address })).1 = epdf_error_t.EPDF_ERROR_UNKNOWN ∧
    (epdf_page_free
        { functions with page_clear := some (fun index data => pdf_page_clear (some index) data) }
        (some { p with document := some address })).1 ≠ epdf_error_t.EPDF_ERROR_OK := by
  have h : (epdf_page_free
      { functions with page_clear := some (fun index data => pdf_page_clear (some index) data) }
      (some { p with document := some address })).1 = epdf_error_t.EPDF_ERROR_UNKNOWN := by
    simp only [epdf_page_free, pdf_page_clear]
    cases p.data <;> rfl
  exact ⟨h, by rw [h]; decide⟩

/-! ## Null handles -/

/-- C20, as stated, fails: with a null handle `epdf_document_attachment_save`,
`epdf_document_free` and `epdf_page_render` return InvalidArguments, not
Unknown, and `epdf_document_get_device_factors` returns (1, 1). -/
theorem null_handle_counterexample :
    epdf_document_attachment_save none (some "a.txt") (some "/tmp/a.txt") =
      epdf_error_t.EPDF_ERROR_INVALID_ARGUMENTS ∧
    (epdf_document_free none).1 = epdf_error_t.EPDF_ERROR_INVALID_ARGUMENTS ∧
    epdf_page_render sample_functions none (some 1) false =
      epdf_error_t.EPDF_ERROR_INVALID_ARGUMENTS ∧
    epdf_error_t.EPDF_ERROR_INVALID_ARGUMENTS ≠ epdf_error_t.EPDF_ERROR_UNKNOWN ∧
    epdf_document_get_device_factors none = { x := 1, y := 1 } := by
  refine ⟨rfl, rfl, rfl, by decide, rfl⟩

/-- C20, amended: called with a null document or page handle, every operation
that returns a value returns a fixed sentinel: the numeric document getters
return 0 (the adjust mode is `EPDF_ADJUST_NONE`, the device factors are (1, 1)),
`epdf_page_get_width` and `epdf_page_get_height` return -1, the other page
getters 0, false or `NULL`, the pointer getters and `epdf_document_get_page`
return `NULL`, `epdf_document_save_as` returns Unknown, and
`epdf_document_attachment_save`, `epdf_document_free`, `epdf_page_free` and
`epdf_page_render` return InvalidArguments; `epdf_page_new`,
`epdf_page_get_text`, `epdf_page_image_get_cairo` and `epdf_page_get_label`
return `NULL`. -/
theorem null_handle_sentinels :
    epdf_document_get_number_of_pages none = 0 ∧
    epdf_document_get_current_page_number none = 0 ∧
    epdf_document_get_position_x none = 0 ∧
    epdf_document_get_position_y none = 0 ∧
    epdf_document_get_zoom none = 0 ∧
    epdf_document_get_scale none = 0 ∧
    epdf_document_get_rotation none = 0 ∧
    epdf_document_get_page_offset none = 0 ∧
    epdf_document_get_viewport_ppi none = 0 ∧
    epdf_document_get_page_padding none = 0 ∧
    epdf_document_get_pages_per_row none = 0 ∧
    epdf_document_get_first_page_column none = 0 ∧
    epdf_document_get_adjust_mode none = epdf_adjust_mode_t.EPDF_ADJUST_NONE ∧
    epdf_document_get_device_factors none = { x := 1, y := 1 } ∧
    epdf_page_get_width none = -1 ∧
    epdf_page_get_height none = -1 ∧
    epdf_page_get_index none = 0 ∧
    epdf_page_get_visibility none = false ∧
    epdf_page_get_document none = none ∧
    epdf_page_get_data none = none ∧
    epdf_document_get_path none = none ∧
    epdf_document_get_hash none = none ∧
    epdf_document_get_uri none = none ∧
    epdf_document_get_basename none = none ∧
    epdf_document_get_password none = none ∧
    epdf_document_get_data none = none ∧
    (∀ index : Nat, epdf_document_get_page none index = none) ∧
    (∀ path : Option String,
      epdf_document_save_as none path = epdf_error_t.EPDF_ERROR_UNKNOWN) ∧
    (∀ attachment file : Option String,
      epdf_document_attachment_save none attachment file =
        epdf_error_t.EPDF_ERROR_INVALID_ARGUMENTS) ∧
    (epdf_document_free none).1 = epdf_error_t.EPDF_ERROR_INVALID_ARGUMENTS ∧
    (∀ functions : epdf_plugin_functions_t,
      (epdf_page_free functions none).1 = epdf_error_t.EPDF_ERROR_INVALID_ARGUMENTS) ∧
    (∀ (functions : epdf_plugin_functions_t) (cairo : Option Nat) (printing : Bool),
      epdf_page_render functions none cairo printing =
        epdf_error_t.EPDF_ERROR_INVALID_ARGUMENTS) ∧
    (∀ (functions : epdf_plugin_functions_t) (page_memory : Bool) (index : Nat)
        (error : Option epdf_error_t),
      (epdf_page_new functions page_memory none index error).1 = none) ∧
    (∀ (functions : epdf_plugin_functions_t) (rectangle : epdf_rectangle_t)
        (error : Option epdf_error_t),
      (epdf_page_get_text functions none rectangle error).1 = none) ∧
    (∀ (functions : epdf_plugin_functions_t) (image : Option Nat)
        (error : Option epdf_error_t),
      (epdf_page_image_get_cairo functions none image error).1 = none) ∧
    (∀ (functions : epdf_plugin_functions_t) (error : Option epdf_error_t),
      (epdf_page_get_label functions none error).1 = none) := by
  refine ⟨rfl, rfl, rfl, rfl, rfl, rfl, rfl, rfl, rfl, rfl, rfl, rfl, rfl, rfl, rfl, rfl, rfl,
    rfl, rfl, rfl, rfl, rfl, rfl, rfl, rfl, rfl, fun _ => rfl, fun _ => rfl, fun _ _ => rfl,
    rfl, fun _ => rfl, fun _ _ _ => rfl, fun _ _ _ _ => rfl, fun _ _ _ => rfl,
    fun _ _ _ => rfl, fun _ _ => rfl⟩

/-! ## Opening: arguments and missing slots -/

/-- C15 fails on the code: with a null path `epdf_document_open` returns `NULL`
at once and leaves the error parameter as it was; no error is written. -/
theorem open_null_path (sys : epdf_system_t) (epdf : Option epdf_t)
    (uri password : Option String) (error : Option epdf_error_t) :
    epdf_document_open sys epdf none uri password error = (none, error, []) := by
  cases epdf <;> rfl

/-- C14 fails on the code: in the sample session, with the error variable
holding Ok before the call, a backend without `document_open` makes
`epdf_document_open` return `NULL` with the error variable still Ok, and a
backend without `page_init` that reports two pages makes it return `NULL` with
the error variable set to OutOfMemory. -/
theorem open_missing_slot :
    (epdf_document_open sample_system (some (session_with no_open_functions))
      (some "/tmp/a.pdf") none none (some epdf_error_t.EPDF_ERROR_OK)).1 = none ∧
    (epdf_document_open sample_system (some (session_with no_open_functions))
      (some "/tmp/a.pdf") none none (some epdf_error_t.EPDF_ERROR_OK)).2.1 =
        some epdf_error_t.EPDF_ERROR_OK ∧
    (epdf_document_open sample_system (some (session_with no_page_init_functions))
      (some "/tmp/a.pdf") none none (some epdf_error_t.EPDF_ERROR_OK)).1 = none ∧
    (epdf_document_open sample_system (some (session_with no_page_init_functions))
      (some "/tmp/a.pdf") none none (some epdf_error_t.EPDF_ERROR_OK)).2.1 =
        some epdf_error_t.EPDF_ERROR_OUT_OF_MEMORY := by
  refine ⟨?_, ?_, ?_, ?_⟩ <;>
    simp [epdf_document_open, sample_system, session_with, no_open_functions,
      no_page_init_functions, epdf_plugin_get_functions, sample_functions,
      epdf_document_open_pages, epdf_page_new, check_set_error]

/-! ## Opening: the page loop -/

/-- One iteration of the page loop, in terms of `store_page`. -/
theorem open_pages_succ (sys : epdf_system_t) (functions : epdf_plugin_functions_t)
    (address count : Nat) (d : epdf_document_t) :
    epdf_document_open_pages sys functions address (count + 1) d =
      match (epdf_page_new functions (sys.page_memory (d.number_of_pages - (count + 1)))
          (some (address, d)) (d.number_of_pages - (count + 1)) none).1 with
      | none =>
        (false, d,
         (epdf_page_new functions (sys.page_memory (d.number_of_pages - (count + 1)))
           (some (address, d)) (d.number_of_pages - (count + 1)) none).2.2)
      | some page =>
        ((epdf_document_open_pages sys functions address count
            (store_page d (d.number_of_pages - (count + 1)) page)).1,
         (epdf_document_open_pages sys functions address count
            (store_page d (d.number_of_pages - (count + 1)) page)).2.1,
         (epdf_page_new functions (sys.page_memory (d.number_of_pages - (count + 1)))
           (some (address, d)) (d.number_of_pages - (count + 1)) none).2.2 ++
         (epdf_document_open_pages sys functions address count
            (store_page d (d.number_of_pages - (count + 1)) page)).2.2) := rfl

/-- What `store_page` changes: the page array entry and the two cell extents. -/
theorem store_page_eq (d : epdf_document_t) (page_id : Nat) (page : epdf_page_t) :
    store_page d page_id page =
      { d with
        pages := d.pages.map (fun ps => ps.set page_id (some page))
        cell_width := max d.cell_width page.width
        cell_height := max d.cell_height page.height } := by
  simp only [store_page, epdf_page_get_width, epdf_page_get_height]
  by_cases hw : d.cell_width < page.width <;> by_cases hh : d.cell_height < page.height
  · simp [hw, hh, max_eq_right (le_of_lt hw), max_eq_right (le_of_lt hh)]
  · simp [hw, hh, max_eq_right (le_of_lt hw), max_eq_left (not_lt.mp hh)]
  · simp [hw, hh, max_eq_left (not_lt.mp hw), max_eq_right (le_of_lt hh)]
  · simp [hw, hh, max_eq_left (not_lt.mp hw), max_eq_left (not_lt.mp hh)]

/-- Storing the page with index `k` keeps the cell bounds, now for `k + 1` pages. -/
theorem store_page_cell_bounds (d : epdf_document_t) (k : Nat) (page : epdf_page_t)
    (hk : k < d.number_of_pages) (hb : cell_bounds d k) :
    cell_bounds (store_page d k page) (k + 1) := by
  obtain ⟨ps, hps, hlen, hbuilt, hw0, hh0, hwa, hha⟩ := hb
  rw [store_page_eq]
  have hkl : k < ps.length := by omega
  have hself : (ps.set k (some page)).get? k = some (some page) := by
    rw [List.get?_eq_getElem?, List.getElem?_set_self hkl]
  have hne : ∀ i, i < k → (ps.set k (some page)).get? i = ps.get? i := by
    intro i hi
    rw [List.get?_eq_getElem?, List.get?_eq_getElem?,
      List.getElem?_set_ne (show k ≠ i by omega)]
  refine ⟨ps.set k (some page), by simp [hps], by simpa using hlen, ?_,
    le_max_of_le_left hw0, le_max_of_le_left hh0, ?_, ?_⟩
  · intro i hi
    rcases Nat.lt_succ_iff_lt_or_eq.mp hi with hlt | heq
    · obtain ⟨p, hp, hpw, hph⟩ := hbuilt i hlt
      exact ⟨p, (hne i hlt).trans hp, le_max_of_le_left hpw, le_max_of_le_left hph⟩
    · subst heq
      exact ⟨page, hself, le_max_right _ _, le_max_right _ _⟩
  · show max d.cell_width page.width = 0 ∨ ∃ i, ∃ p : epdf_page_t, i < k + 1 ∧
      (ps.set k (some page)).get? i = some (some p) ∧ p.width = max d.cell_width page.width
    rcases le_total page.width d.cell_width with hle | hle
    · rw [max_eq_left hle]
      rcases hwa with h0 | ⟨i, p, hi, hp, hpw⟩
      · exact Or.inl h0
      · exact Or.inr ⟨i, p, by omega, (hne i hi).trans hp, hpw⟩
    · rw [max_eq_right hle]
      exact Or.inr ⟨k, page, by omega, hself, rfl⟩
  · show max d.cell_height page.height = 0 ∨ ∃ i, ∃ p : epdf_page_t, i < k + 1 ∧
      (ps.set k (some page)).get? i = some (some p) ∧ p.height = max d.cell_height page.height
    rcases le_total page.height d.cell_height with hle | hle
    · rw [max_eq_left hle]
      rcases hha with h0 | ⟨i, p, hi, hp, hph⟩
      · exact Or.inl h0
      · exact Or.inr ⟨i, p, by omega, (hne i hi).trans hp, hph⟩
    · rw [max_eq_right hle]
      exact Or.inr ⟨k, page, by omega, hself, rfl⟩

/-- `store_page` leaves the page count alone. -/
theorem store_page_number_of_pages (d : epdf_document_t) (k : Nat) (page : epdf_page_t) :
    (store_page d k page).number_of_pages = d.number_of_pages := by
  rw [store_page_eq]

/-- When the page loop builds every page, the cell bounds hold for all pages of
the resulting document. -/
theorem open_pages_cell_bounds (sys : epdf_system_t) (functions : epdf_plugin_functions_t)
    (address : Nat) (count : Nat) (d : epdf_document_t)
    (hle : count ≤ d.number_of_pages) (hb : cell_bounds d (d.number_of_pages - count))
    (hres : (epdf_document_open_pages sys functions address count d).1 = true) :
    cell_bounds (epdf_document_open_pages sys functions address count d).2.1
      (epdf_document_open_pages sys functions address count d).2.1.number_of_pages := by
  induction count generalizing d with
  | zero => simpa [epdf_document_open_pages] using hb
  | succ c ih =>
    rw [open_pages_succ] at hres ⊢
    cases hnew : (epdf_page_new functions (sys.page_memory (d.number_of_pages - (c + 1)))
        (some (address, d)) (d.number_of_pages - (c + 1)) none).1 with
    | none =>
      rw [hnew] at hres
      simp at hres
    | some page =>
      rw [hnew] at hres
      simp only at hres ⊢
      have hn := store_page_number_of_pages d (d.number_of_pages - (c + 1)) page
      apply ih _ (by rw [hn]; omega) _ hres
      rw [hn]
      have hk : d.number_of_pages - c = d.number_of_pages - (c + 1) + 1 := by omega
      rw [hk]
      exact store_page_cell_bounds d _ page (by omega) hb

/-- A document returned by `epdf_document_open` satisfies the cell bounds for
all its pages. -/
theorem open_cell_bounds (sys : epdf_system_t) (epdf : Option epdf_t)
    (path uri password : Option String) (error : Option epdf_error_t) (d : epdf_document_t)
    (h : (epdf_document_open sys epdf path uri password error).1 = some d) :
    cell_bounds d d.number_of_pages := by
  unfold epdf_document_open at h
  split at h
  · simp at h
  · simp at h
  · split at h
    · simp at h
    · split at h
      · simp at h
      · split at h
        · simp at h
        · split at h
          · simp at h
          · split at h
            · simp at h
            · simp only at h
              split at h
              · simp at h
              · split_ifs at h with _ _ hloop
                simp only [Option.some.injEq] at h
                subst h
                refine open_pages_cell_bounds _ _ _ _ _ (le_refl _) ?_
                  (by simpa using hloop)
                refine ⟨_, rfl, by simp, ?_, le_refl _, le_refl _, Or.inl rfl, Or.inl rfl⟩
                intro i hi
                simp at hi

/-- C12, as stated, fails: the backend `unavailable_size_functions` has one page,
of width and height -1; opening succeeds with `cell_width = 0` and
`cell_height = 0`, which no page attains. -/
theorem cell_size_counterexample :
    (epdf_document_open sample_system (some (session_with unavailable_size_functions))
      (some "/tmp/a.pdf") none none (some epdf_error_t.EPDF_ERROR_OK)).1 =
        some unavailable_size_document ∧
    unavailable_size_document.number_of_pages = 1 ∧
    unavailable_size_document.cell_width = 0 ∧
    unavailable_size_document.cell_height = 0 ∧
    ∀ p : epdf_page_t, epdf_document_get_page (some unavailable_size_document) 0 = some p →
      p.width = -1 ∧ p.height = -1 ∧ p.width ≠ unavailable_size_document.cell_width ∧
      p.height ≠ unavailable_size_document.cell_height := by
  refine ⟨?_, rfl, rfl, rfl, ?_⟩
  · norm_num [epdf_document_open, sample_system, session_with, unavailable_size_document,
      unavailable_size_functions, sample_document, epdf_plugin_get_functions, sample_functions,
      epdf_document_open_pages, epdf_page_new, epdf_page_get_width, epdf_page_get_height]
  · intro p hp
    simp [epdf_document_get_page, unavailable_size_document, sample_document] at hp
    subst hp
    norm_num [unavailable_size_document, sample_document]

/-- C12, amended: after every successful `epdf_document_open` the document has
`number_of_pages` pages, all built; `cell_width` is the maximum of 0 and the
widths of the pages and `cell_height` the maximum of 0 and their heights: both
are non-negative, `cell_width >= width(p)` and `cell_height >= height(p)` for
every page `p`, and each of the two is either 0 or attained by some page. -/
theorem open_cell_size (sys : epdf_system_t) (epdf : Option epdf_t)
    (path uri password : Option String) (error : Option epdf_error_t) (d : epdf_document_t)
    (h : (epdf_document_open sys epdf path uri password error).1 = some d) :
    ∃ ps : List (Option epdf_page_t), d.pages = some ps ∧ ps.length = d.number_of_pages ∧
      (∀ q ∈ ps, ∃ p : epdf_page_t, q = some p ∧
        p.width ≤ d.cell_width ∧ p.height ≤ d.cell_height) ∧
      0 ≤ d.cell_width ∧ 0 ≤ d.cell_height ∧
      (d.cell_width = 0 ∨ ∃ p : epdf_page_t, some p ∈ ps ∧ p.width = d.cell_width) ∧
      (d.cell_height = 0 ∨ ∃ p : epdf_page_t, some p ∈ ps ∧ p.height = d.cell_height) := by
  obtain ⟨ps, hps, hlen, hbuilt, hw0, hh0, hwa, hha⟩ :=
    open_cell_bounds sys epdf path uri password error d h
  refine ⟨ps, hps, hlen, ?_, hw0, hh0, ?_, ?_⟩
  · intro q hq
    obtain ⟨i, hi, hiq⟩ := List.getElem_of_mem hq
    obtain ⟨p, hp, hpw, hph⟩ := hbuilt i (by omega)
    rw [List.get?_eq_getElem?, List.getElem?_eq_getElem hi, hiq] at hp
    exact ⟨p, Option.some.inj hp, hpw, hph⟩
  · rcases hwa with h0 | ⟨i, p, _, hp, hpw⟩
    · exact Or.inl h0
    · exact Or.inr ⟨p, List.get?_mem hp, hpw⟩
  · rcases hha with h0 | ⟨i, p, _, hp, hph⟩
    · exact Or.inl h0
    · exact Or.inr ⟨p, List.get?_mem hp, hph⟩

/-- The cell bounds of C12 on the sample document. -/
theorem open_cell_size_witness :
    ∃ ps : List (Option epdf_page_t), sample_document.pages = some ps ∧
      ps.length = sample_document.number_of_pages ∧
      (∀ q ∈ ps, ∃ p : epdf_page_t, q = some p ∧
        p.width ≤ sample_document.cell_width ∧ p.height ≤ sample_document.cell_height) ∧
      0 ≤ sample_document.cell_width ∧ 0 ≤ sample_document.cell_height ∧
      (sample_document.cell_width = 0 ∨
        ∃ p : epdf_page_t, some p ∈ ps ∧ p.width = sample_document.cell_width) ∧
      (sample_document.cell_height = 0 ∨
        ∃ p : epdf_page_t, some p ∈ ps ∧ p.height = sample_document.cell_height) :=
  open_cell_size sample_system (some sample_epdf) (some "/tmp/a.pdf") none none
    (some epdf_error_t.EPDF_ERROR_OK) sample_document sample_open

/-- C13: when the path resolves, a backend is found, the document is
allocated, the backend's open slot succeeds and reports `number_of_pages = 0`,
and the allocation of the (empty) page array succeeds, `epdf_document_open`
returns a document, leaves the error parameter as it was, and the document has
no pages, an empty page array, `cell_width = 0` and `cell_height = 0`. -/
theorem open_empty_document (sys : epdf_system_t) (e : epdf_t) (p : String)
    (uri password : Option String) (error : Option epdf_error_t) (file : g_file_t)
    (real_path content_type : String) (plugin : epdf_plugin_t) (address : Nat)
    (document_open : Option String → Option String → epdf_error_t × Nat × Option Nat)
    (data : Option Nat)
    (hfile : sys.g_file_new_for_path p = some file) (hpath : file.path = some real_path)
    (htype : e.epdf_content_type_guess real_path = some content_type)
    (hplugin : e.epdf_plugin_manager_get_plugin content_type = some plugin)
    (hmem : sys.document_memory = some address)
    (hopen : (epdf_plugin_get_functions plugin).document_open = some document_open)
    (hresult : document_open (some real_path) password = (epdf_error_t.EPDF_ERROR_OK, 0, data))
    (hpages : sys.pages_memory 0 = true) :
    ∃ d : epdf_document_t,
      (epdf_document_open sys (some e) (some p) uri password error).1 = some d ∧
      (epdf_document_open sys (some e) (some p) uri password error).2.1 = error ∧
      d.number_of_pages = 0 ∧ d.pages = some [] ∧ d.cell_width = 0 ∧ d.cell_height = 0 ∧
      d.data = data := by
  simp [epdf_document_open, hfile, hpath, htype, hplugin, hmem, hopen, hresult, hpages,
    epdf_document_open_pages]

/-- C13 in the sample session with the backend `empty_document_functions`. -/
theorem open_empty_document_witness :
    ∃ d : epdf_document_t,
      (epdf_document_open sample_system (some (session_with empty_document_functions))
        (some "/tmp/a.pdf") none none (some epdf_error_t.EPDF_ERROR_OK)).1 = some d ∧
      (epdf_document_open sample_system (some (session_with empty_document_functions))
        (some "/tmp/a.pdf") none none (some epdf_error_t.EPDF_ERROR_OK)).2.1 =
          some epdf_error_t.EPDF_ERROR_OK ∧
      d.number_of_pages = 0 ∧ d.pages = some [] ∧ d.cell_width = 0 ∧ d.cell_height = 0 ∧
      d.data = some 7 :=
  open_empty_document sample_system (session_with empty_document_functions) "/tmp/a.pdf"
    none none (some epdf_error_t.EPDF_ERROR_OK)
    { path := some "/tmp/a.pdf", basename := some "a.pdf" } "/tmp/a.pdf" "application/pdf"
    { functions := empty_document_functions } 4096
    (fun _ _ => (epdf_error_t.EPDF_ERROR_OK, 0, some 7)) (some 7)
    rfl rfl rfl rfl rfl rfl rfl rfl

/-! ## Teardown -/

/-- What `epdf_page_free` does for a page that has a document when the backend
has a `page_clear` slot. -/
theorem page_free_with_clear (functions : epdf_plugin_functions_t)
    (page_clear : Nat → Option Nat → epdf_error_t) (p : epdf_page_t)
    (hclear : functions.page_clear = some page_clear) (hdocument : p.document ≠ none) :
    epdf_page_free functions (some p) =
      (page_clear p.index p.data,
       [lifecycle_event.page_clear p.index p.data, lifecycle_event.page_released p.index]) := by
  cases hd : p.document with
  | none => exact absurd hd hdocument
  | some a => simp only [epdf_page_free, hd, hclear]

/-- Freeing a page never calls the backend's `document_free`. -/
theorem document_frees_page_free (functions : epdf_plugin_functions_t)
    (page : Option epdf_page_t) : document_frees (epdf_page_free functions page).2 = [] := by
  cases page with
  | none => rfl
  | some p =>
    simp only [epdf_page_free]
    cases p.document with
    | none => rfl
    | some a =>
      cases functions.page_clear with
      | none => rfl
      | some c => rfl

/-- The page loop of `epdf_document_free` never calls the backend's
`document_free`. -/
theorem document_frees_free_pages (functions : epdf_plugin_functions_t)
    (pages : List (Option epdf_page_t)) (count page_id : Nat) :
    document_frees (epdf_document_free_pages functions pages count page_id) = [] := by
  induction count generalizing page_id with
  | zero => rfl
  | succ c ih =>
    simp only [epdf_document_free_pages, document_frees, List.filterMap_append]
    have hrest := ih (page_id + 1)
    simp only [document_frees] at hrest
    rw [hrest, List.append_nil]
    cases hget : pages.get? page_id with
    | none => rfl
    | some page => exact document_frees_page_free functions page

/-- The page loop of `epdf_document_free` over an array whose entries are all
pages with a document, for a backend with a `page_clear` slot: from `page_id`
to the end of the array, each page is cleared and released, in array order. -/
theorem free_pages_of_built (functions : epdf_plugin_functions_t)
    (page_clear : Nat → Option Nat → epdf_error_t) (pages : List epdf_page_t)
    (hclear : functions.page_clear = some page_clear)
    (hdocument : ∀ p ∈ pages, p.document ≠ none) (count page_id : Nat)
    (hcount : page_id + count = pages.length) :
    epdf_document_free_pages functions (pages.map some) count page_id =
      (pages.drop page_id).flatMap (fun p =>
        [lifecycle_event.page_clear p.index p.data, lifecycle_event.page_released p.index]) := by
  induction count generalizing page_id with
  | zero =>
    have : pages.drop page_id = [] := List.drop_eq_nil_of_le (by omega)
    rw [this]
    rfl
  | succ c ih =>
    have hlt : page_id < pages.length := by omega
    have hget : (pages.map some).get? page_id = some (some pages[page_id]) := by
      rw [List.get?_eq_getElem?, List.getElem?_map, List.getElem?_eq_getElem hlt]
      rfl
    simp only [epdf_document_free_pages, hget]
    rw [ih (page_id + 1) (by omega), List.drop_eq_getElem_cons hlt, List.flatMap_cons,
      page_free_with_clear functions page_clear _ hclear
        (hdocument _ (List.getElem_mem hlt))]

/-- The pages cleared in a run of clear-and-release pairs. -/
theorem cleared_pages_bind {α : Type} (l : List α) (f : α → Nat) (g : α → Option Nat) :
    cleared_pages (l.flatMap (fun a =>
      [lifecycle_event.page_clear (f a) (g a), lifecycle_event.page_released (f a)])) =
      l.map (fun a => (f a, g a)) := by
  induction l with
  | nil => rfl
  | cons a l ih =>
    simp only [cleared_pages] at ih
    simp [cleared_pages, List.flatMap_cons, List.filterMap_cons, ih]

/-- The pages released in a run of clear-and-release pairs. -/
theorem released_pages_bind {α : Type} (l : List α) (f : α → Nat) (g : α → Option Nat) :
    released_pages (l.flatMap (fun a =>
      [lifecycle_event.page_clear (f a) (g a), lifecycle_event.page_released (f a)])) =
      l.map f := by
  induction l with
  | nil => rfl
  | cons a l ih =>
    simp only [released_pages] at ih
    simp [released_pages, List.flatMap_cons, List.filterMap_cons, ih]

/-- A run of clear-and-release pairs holds no call of `document_free`. -/
theorem document_frees_bind {α : Type} (l : List α) (f : α → Nat) (g : α → Option Nat) :
    document_frees (l.flatMap (fun a =>
      [lifecycle_event.page_clear (f a) (g a), lifecycle_event.page_released (f a)])) = [] := by
  induction l with
  | nil => rfl
  | cons a l ih =>
    simp only [document_frees] at ih
    simp [document_frees, List.flatMap_cons, List.filterMap_cons, ih]

/-- C17: for every document with a non-null backend, the calls of
`epdf_document_free` are those of its page loop followed by the call of the
backend's `document_free` slot (if the backend has one) and the release of the
document, and the page loop holds no `document_free` call.  When the array
holds `number_of_pages` pages, page `i` with index `i` and a document, and the
backend has both slots, the calls are, in this order: `page_clear` and release
of page 0, of page 1, ..., of page `number_of_pages - 1`, then `document_free`
on the backend state, then the release of the document. -/
theorem free_order (d : epdf_document_t) (plugin : epdf_plugin_t)
    (hplugin : d.plugin = some plugin) :
    (∃ page_events : List lifecycle_event,
      (epdf_document_free (some d)).2 =
        page_events ++
          (match (epdf_plugin_get_functions plugin).document_free with
           | none => [lifecycle_event.document_released]
           | some _ => [lifecycle_event.document_free d.data,
                        lifecycle_event.document_released]) ∧
      document_frees page_events = []) ∧
    (∀ (pages : List epdf_page_t) (page_clear : Nat → Option Nat → epdf_error_t)
        (document_free : Option Nat → epdf_error_t),
      d.pages = some (pages.map some) → pages.length = d.number_of_pages →
      (∀ p ∈ pages, p.document ≠ none) → pages.map (fun p => p.index) = List.range pages.length →
      (epdf_plugin_get_functions plugin).page_clear = some page_clear →
      (epdf_plugin_get_functions plugin).document_free = some document_free →
      (epdf_document_free (some d)).2 =
        pages.flatMap (fun p =>
          [lifecycle_event.page_clear p.index p.data, lifecycle_event.page_released p.index]) ++
        [lifecycle_event.document_free d.data, lifecycle_event.document_released] ∧
      (cleared_pages (epdf_document_free (some d)).2).map Prod.fst =
        List.range d.number_of_pages ∧
      document_frees (epdf_document_free (some d)).2 = [d.data]) := by
  constructor
  · cases hfree : (epdf_plugin_get_functions plugin).document_free with
    | none =>
      refine ⟨match d.pages with
        | none => []
        | some pages =>
          epdf_document_free_pages (epdf_plugin_get_functions plugin) pages d.number_of_pages 0,
        ?_, ?_⟩
      · simp only [epdf_document_free, hplugin, hfree]
      · cases d.pages with
        | none => rfl
        | some ps => exact document_frees_free_pages _ _ _ _
    | some f =>
      refine ⟨match d.pages with
        | none => []
        | some pages =>
          epdf_document_free_pages (epdf_plugin_get_functions plugin) pages d.number_of_pages 0,
        ?_, ?_⟩
      · simp only [epdf_document_free, hplugin, hfree]
      · cases d.pages with
        | none => rfl
        | some ps => exact document_frees_free_pages _ _ _ _
  · intro pages page_clear document_free hpages hlen hdocument hindex hclear hfree
    have hloop := free_pages_of_built (epdf_plugin_get_functions plugin) page_clear pages hclear
      hdocument d.number_of_pages 0 (by omega)
    rw [List.drop_zero] at hloop
    have hevents : (epdf_document_free (some d)).2 =
        pages.flatMap (fun p =>
          [lifecycle_event.page_clear p.index p.data, lifecycle_event.page_released p.index]) ++
        [lifecycle_event.document_free d.data, lifecycle_event.document_released] := by
      simp only [epdf_document_free, hplugin, hfree, hpages, hloop]
    refine ⟨hevents, ?_, ?_⟩
    · rw [hevents, cleared_pages, List.filterMap_append, ← cleared_pages, ← cleared_pages,
        cleared_pages_bind]
      simp only [cleared_pages, List.filterMap_cons, List.filterMap_nil, List.append_nil,
        List.map_map]
      rw [← hlen, ← hindex]
      rfl
    · rw [hevents, document_frees, List.filterMap_append, ← document_frees, ← document_frees,
        document_frees_bind]
      rfl

/-- C17 on the sample document: page 0 is cleared and released, then page 1,
then the backend state is freed, then the document is released. -/
theorem free_order_witness :
    (epdf_document_free (some sample_document)).2 =
      [lifecycle_event.page_clear 0 (some 100), lifecycle_event.page_released 0,
       lifecycle_event.page_clear 1 (some 101), lifecycle_event.page_released 1,
       lifecycle_event.document_free (some 7), lifecycle_event.document_released] :=
  ((free_order sample_document { functions := sample_functions } rfl).2
    [sample_page, sample_second_page] (fun _ _ => epdf_error_t.EPDF_ERROR_OK)
    (fun _ => epdf_error_t.EPDF_ERROR_OK) rfl rfl (by decide) rfl rfl rfl).1

/-! ## Opening: failure of a page -/

/-- `epdf_document_open` from the page loop on, once the path is resolved, the
backend found, the document allocated, the backend's open slot has succeeded
and the page array is allocated. -/
theorem open_at_loop (sys : epdf_system_t) (e : epdf_t) (p : String)
    (uri password : Option String) (error : Option epdf_error_t) (file : g_file_t)
    (real_path content_type : String) (plugin : epdf_plugin_t) (address : Nat)
    (document_open : Option String → Option String → epdf_error_t × Nat × Option Nat)
    (n : Nat) (data : Option Nat)
    (hfile : sys.g_file_new_for_path p = some file) (hpath : file.path = some real_path)
    (htype : e.epdf_content_type_guess real_path = some content_type)
    (hplugin : e.epdf_plugin_manager_get_plugin content_type = some plugin)
    (hmem : sys.document_memory = some address)
    (hopen : (epdf_plugin_get_functions plugin).document_open = some document_open)
    (hresult : document_open (some real_path) password = (epdf_error_t.EPDF_ERROR_OK, n, data))
    (hpages : sys.pages_memory n = true) :
    epdf_document_open sys (some e) (some p) uri password error =
      if (epdf_document_open_pages sys (epdf_plugin_get_functions plugin) address n
          (document_before_pages sys file real_path uri password plugin n data)).1 = false then
        (none, check_set_error error epdf_error_t.EPDF_ERROR_OUT_OF_MEMORY,
         lifecycle_event.document_open ::
           ((epdf_document_open_pages sys (epdf_plugin_get_functions plugin) address n
              (document_before_pages sys file real_path uri password plugin n data)).2.2 ++
            (epdf_document_free (some (epdf_document_open_pages sys
              (epdf_plugin_get_functions plugin) address n
              (document_before_pages sys file real_path uri password plugin n data)).2.1)).2))
      else
        (some (epdf_document_open_pages sys (epdf_plugin_get_functions plugin) address n
          (document_before_pages sys file real_path uri password plugin n data)).2.1, error,
         lifecycle_event.document_open ::
           (epdf_document_open_pages sys (epdf_plugin_get_functions plugin) address n
             (document_before_pages sys file real_path uri password plugin n data)).2.2) := by
  simp only [epdf_document_open, hfile, hpath, htype, hplugin, hmem, hopen, hresult, hpages,
    document_before_pages]
  simp

/-- `epdf_page_new` when the page is allocated and `page_init` succeeds. -/
theorem page_new_built (functions : epdf_plugin_functions_t)
    (page_init : Option Nat → Nat → epdf_error_t × ℚ × ℚ × Option Nat)
    (address : Nat) (d : epdf_document_t) (index : Nat)
    (hinit : functions.page_init = some page_init)
    (hok : (page_init d.data index).1 = epdf_error_t.EPDF_ERROR_OK) :
    epdf_page_new functions true (some (address, d)) index none =
      (some (initialised_page page_init address d.data index), none,
       [lifecycle_event.page_init index]) := by
  simp [epdf_page_new, hinit, hok, initialised_page]

/-- `epdf_page_new` when the page is allocated and `page_init` fails. -/
theorem page_new_failed (functions : epdf_plugin_functions_t)
    (page_init : Option Nat → Nat → epdf_error_t × ℚ × ℚ × Option Nat)
    (address : Nat) (d : epdf_document_t) (index : Nat)
    (hinit : functions.page_init = some page_init)
    (hfail : (page_init d.data index).1 ≠ epdf_error_t.EPDF_ERROR_OK) :
    epdf_page_new functions true (some (address, d)) index none =
      (none, none,
       lifecycle_event.page_init index ::
         (epdf_page_free functions (some (initialised_page page_init address d.data index))).2) := by
  simp [epdf_page_new, hinit, hfail, initialised_page, check_set_error]

/-- The document at the start of the page loop has no page built. -/
theorem document_before_pages_built (sys : epdf_system_t) (file : g_file_t)
    (real_path : String) (uri password : Option String) (plugin : epdf_plugin_t) (n : Nat)
    (data : Option Nat)
    (page_init : Option Nat → Nat → epdf_error_t × ℚ × ℚ × Option Nat) (address : Nat) :
    built_pages page_init address data plugin n 0
      (document_before_pages sys file real_path uri password plugin n data) := by
  refine ⟨rfl, rfl, rfl, List.replicate n none, rfl, by simp, ?_, ?_⟩
  · intro i hi
    omega
  · intro i _ hi
    rw [List.get?_eq_getElem?, List.getElem?_replicate_of_lt hi]

/-- Storing the page built at index `k` takes the loop state from `k` to
`k + 1` built pages. -/
theorem store_page_built (page_init : Option Nat → Nat → epdf_error_t × ℚ × ℚ × Option Nat)
    (address : Nat) (data : Option Nat) (plugin : epdf_plugin_t) (n k : Nat)
    (d : epdf_document_t) (hk : k < n) (hb : built_pages page_init address data plugin n k d) :
    built_pages page_init address data plugin n (k + 1)
      (store_page d k (initialised_page page_init address data k)) := by
  obtain ⟨hn, hdata, hplugin, ps, hps, hlen, hbuilt, hnull⟩ := hb
  rw [store_page_eq]
  refine ⟨hn, hdata, hplugin, ps.set k (some (initialised_page page_init address data k)),
    by simp [hps], by simpa using hlen, ?_, ?_⟩
  · intro i hi
    rcases Nat.lt_succ_iff_lt_or_eq.mp hi with hlt | heq
    · rw [List.get?_eq_getElem?, List.getElem?_set_ne (show k ≠ i by omega),
        ← List.get?_eq_getElem?]
      exact hbuilt i hlt
    · subst heq
      rw [List.get?_eq_getElem?, List.getElem?_set_self (by omega)]
  · intro i hki hin
    rw [List.get?_eq_getElem?, List.getElem?_set_ne (show k ≠ i by omega),
      ← List.get?_eq_getElem?]
    exact hnull i (by omega) hin

/-- The page loop over `m` pages that are allocated and initialised without
error: it builds them and goes on with the rest of the loop. -/
theorem open_pages_prefix (sys : epdf_system_t) (functions : epdf_plugin_functions_t)
    (page_init : Option Nat → Nat → epdf_error_t × ℚ × ℚ × Option Nat)
    (address : Nat) (data : Option Nat) (plugin : epdf_plugin_t) (n : Nat)
    (hinit : functions.page_init = some page_init) (m k rest : Nat) (d : epdf_document_t)
    (hsum : k + m + rest = n) (hb : built_pages page_init address data plugin n k d)
    (hgood : ∀ i, k ≤ i → i < k + m →
      sys.page_memory i = true ∧ (page_init data i).1 = epdf_error_t.EPDF_ERROR_OK) :
    ∃ d' : epdf_document_t, built_pages page_init address data plugin n (k + m) d' ∧
      epdf_document_open_pages sys functions address (m + rest) d =
        ((epdf_document_open_pages sys functions address rest d').1,
         (epdf_document_open_pages sys functions address rest d').2.1,
         (List.range' k m).map lifecycle_event.page_init ++
           (epdf_document_open_pages sys functions address rest d').2.2) := by
  induction m generalizing k d with
  | zero =>
    refine ⟨d, by simpa using hb, ?_⟩
    simp
  | succ m ih =>
    have hn : d.number_of_pages = n := hb.1
    have hdata : d.data = data := hb.2.1
    have hcount : m + 1 + rest = (m + rest) + 1 := by omega
    have hid : d.number_of_pages - (m + rest + 1) = k := by omega
    obtain ⟨hmemory, hok⟩ := hgood k (le_refl k) (by omega)
    obtain ⟨d', hd', heq⟩ := ih (k + 1)
      (store_page d k (initialised_page page_init address data k)) (by omega)
      (store_page_built page_init address data plugin n k d (by omega) hb)
      (fun i hki hi => hgood i (by omega) (by omega))
    have hkm : k + 1 + m = k + (m + 1) := by omega
    rw [hkm] at hd'
    refine ⟨d', hd', ?_⟩
    rw [hcount, open_pages_succ, hid, hmemory,
      page_new_built functions page_init address d k hinit (by rw [hdata]; exact hok), hdata]
    simp only [heq, List.range'_succ, List.map_cons, List.singleton_append, List.cons_append,
      List.nil_append]

/-- The page loop at a page that is allocated but whose `page_init` fails: the
loop stops, the document is left as it is, and the page handed to `page_init`
is freed. -/
theorem open_pages_failure (sys : epdf_system_t) (functions : epdf_plugin_functions_t)
    (page_init : Option Nat → Nat → epdf_error_t × ℚ × ℚ × Option Nat)
    (address : Nat) (data : Option Nat) (plugin : epdf_plugin_t) (n : Nat)
    (hinit : functions.page_init = some page_init) (k rest : Nat) (d : epdf_document_t)
    (hsum : k + (rest + 1) = n) (hb : built_pages page_init address data plugin n k d)
    (hmemory : sys.page_memory k = true)
    (hfail : (page_init data k).1 ≠ epdf_error_t.EPDF_ERROR_OK) :
    epdf_document_open_pages sys functions address (rest + 1) d =
      (false, d,
       lifecycle_event.page_init k ::
         (epdf_page_free functions (some (initialised_page page_init address data k))).2) := by
  have hn : d.number_of_pages = n := hb.1
  have hdata : d.data = data := hb.2.1
  have hid : d.number_of_pages - (rest + 1) = k := by omega
  rw [open_pages_succ, hid, hmemory,
    page_new_failed functions page_init address d k hinit (by rw [hdata]; exact hfail), hdata]

/-- The page loop of `epdf_document_free` splits at any point. -/
theorem free_pages_add (functions : epdf_plugin_functions_t)
    (pages : List (Option epdf_page_t)) (a b page_id : Nat) :
    epdf_document_free_pages functions pages (a + b) page_id =
      epdf_document_free_pages functions pages a page_id ++
        epdf_document_free_pages functions pages b (page_id + a) := by
  induction a generalizing page_id with
  | zero => simp [epdf_document_free_pages]
  | succ a ih =>
    have hab : a + 1 + b = (a + b) + 1 := by omega
    have hid : page_id + (a + 1) = page_id + 1 + a := by omega
    rw [hab]
    simp only [epdf_document_free_pages, ih (page_id + 1), hid, List.append_assoc]

/-- The page loop of `epdf_document_free` over entries that are all `NULL` makes
no call. -/
theorem free_pages_null (functions : epdf_plugin_functions_t)
    (pages : List (Option epdf_page_t)) (count page_id : Nat)
    (hnull : ∀ i, page_id ≤ i → i < page_id + count → pages.get? i = some none) :
    epdf_document_free_pages functions pages count page_id = [] := by
  induction count generalizing page_id with
  | zero => rfl
  | succ c ih =>
    simp only [epdf_document_free_pages, hnull page_id (le_refl _) (by omega)]
    rw [ih (page_id + 1) (fun i h1 h2 => hnull i (by omega) (by omega))]
    rfl

/-- The page loop of `epdf_document_free` over entries that hold the pages
`page i`: each is freed, in index order. -/
theorem free_pages_prefix (functions : epdf_plugin_functions_t)
    (pages : List (Option epdf_page_t)) (page : Nat → epdf_page_t) (count page_id : Nat)
    (hbuilt : ∀ i, page_id ≤ i → i < page_id + count → pages.get? i = some (some (page i))) :
    epdf_document_free_pages functions pages count page_id =
      (List.range' page_id count).flatMap (fun i => (epdf_page_free functions (some (page i))).2) := by
  induction count generalizing page_id with
  | zero => rfl
  | succ c ih =>
    simp only [epdf_document_free_pages, hbuilt page_id (le_refl _) (by omega)]
    rw [ih (page_id + 1) (fun i h1 h2 => hbuilt i (by omega) (by omega)), List.range'_succ,
      List.flatMap_cons]

/-- Teardown of a document whose page loop stopped after `k` built pages, for a
backend with `page_clear` and `document_free` slots: the `k` pages are cleared
and released in index order, then the backend state is freed and the document
released. -/
theorem free_of_built_pages (page_init : Option Nat → Nat → epdf_error_t × ℚ × ℚ × Option Nat)
    (address : Nat) (data : Option Nat) (plugin : epdf_plugin_t) (n k : Nat)
    (d : epdf_document_t) (page_clear : Nat → Option Nat → epdf_error_t)
    (document_free : Option Nat → epdf_error_t) (hk : k ≤ n)
    (hb : built_pages page_init address data plugin n k d)
    (hclear : (epdf_plugin_get_functions plugin).page_clear = some page_clear)
    (hfree : (epdf_plugin_get_functions plugin).document_free = some document_free) :
    (epdf_document_free (some d)).2 =
      (List.range k).flatMap (fun i =>
        [lifecycle_event.page_clear i (page_init data i).2.2.2,
         lifecycle_event.page_released i]) ++
      [lifecycle_event.document_free data, lifecycle_event.document_released] := by
  obtain ⟨hn, hdata, hplugin, ps, hps, hlen, hbuilt, hnull⟩ := hb
  have hloop : epdf_document_free_pages (epdf_plugin_get_functions plugin) ps n 0 =
      (List.range k).flatMap (fun i =>
        [lifecycle_event.page_clear i (page_init data i).2.2.2,
         lifecycle_event.page_released i]) := by
    have hsplit : n = k + (n - k) := by omega
    rw [hsplit, free_pages_add,
      free_pages_prefix _ ps (initialised_page page_init address data) k 0
        (fun i _ hi => hbuilt i (by omega)),
      free_pages_null _ ps (n - k) (0 + k) (fun i h1 h2 => hnull i (by omega) (by omega)),
      List.append_nil, List.range_eq_range']
    congr 1
    funext i
    rw [page_free_with_clear _ page_clear _ hclear (by simp [initialised_page])]
    rfl
  simp only [epdf_document_free, hplugin, hfree, hps, hn, hloop, hdata]

/-- A run of `page_init` calls clears no page, releases no page and frees no
backend document state. -/
theorem projections_page_inits (l : List Nat) :
    cleared_pages (l.map lifecycle_event.page_init) = [] ∧
    released_pages (l.map lifecycle_event.page_init) = [] ∧
    document_frees (l.map lifecycle_event.page_init) = [] := by
  induction l with
  | nil => exact ⟨rfl, rfl, rfl⟩
  | cons a l ih =>
    obtain ⟨h1, h2, h3⟩ := ih
    simp only [cleared_pages, released_pages, document_frees] at h1 h2 h3
    simp [cleared_pages, released_pages, document_frees, List.filterMap_cons, h1, h2, h3]

/-- C16: when the path resolves, a backend with `page_init`, `page_clear` and
`document_free` slots is found, the document and the page array are allocated,
the backend's open slot succeeds with `n` pages and state `data`, the pages
before index `k < n` are allocated and initialised without error, and page `k`
is allocated but its `page_init` fails, then `epdf_document_open` returns `NULL`
and reports OutOfMemory, and its calls are exactly: `document_open`;
`page_init` for pages 0 to `k`; `page_clear` and release of the failed page `k`;
`page_clear` and release of page 0, 1, ..., `k - 1`, each with the state its
`page_init` attached; `document_free` on `data`; release of the document.  So
every page is cleared once and released once, no page twice, and
`document_free` is called once, on the backend document state. -/
theorem open_page_init_failure (sys : epdf_system_t) (e : epdf_t) (p : String)
    (uri password : Option String) (error : Option epdf_error_t) (file : g_file_t)
    (real_path content_type : String) (plugin : epdf_plugin_t) (address : Nat)
    (document_open : Option String → Option String → epdf_error_t × Nat × Option Nat)
    (page_init : Option Nat → Nat → epdf_error_t × ℚ × ℚ × Option Nat)
    (page_clear : Nat → Option Nat → epdf_error_t) (document_free : Option Nat → epdf_error_t)
    (n k : Nat) (data : Option Nat)
    (hfile : sys.g_file_new_for_path p = some file) (hpath : file.path = some real_path)
    (htype : e.epdf_content_type_guess real_path = some content_type)
    (hplugin : e.epdf_plugin_manager_get_plugin content_type = some plugin)
    (hmem : sys.document_memory = some address)
    (hopen : (epdf_plugin_get_functions plugin).document_open = some document_open)
    (hresult : document_open (some real_path) password = (epdf_error_t.EPDF_ERROR_OK, n, data))
    (hpages : sys.pages_memory n = true)
    (hinit : (epdf_plugin_get_functions plugin).page_init = some page_init)
    (hclear : (epdf_plugin_get_functions plugin).page_clear = some page_clear)
    (hfree : (epdf_plugin_get_functions plugin).document_free = some document_free)
    (hk : k < n)
    (hbefore : ∀ i, i < k →
      sys.page_memory i = true ∧ (page_init data i).1 = epdf_error_t.EPDF_ERROR_OK)
    (hmemory : sys.page_memory k = true)
    (hfail : (page_init data k).1 ≠ epdf_error_t.EPDF_ERROR_OK) :
    (epdf_document_open sys (some e) (some p) uri password error).1 = none ∧
    (epdf_document_open sys (some e) (some p) uri password error).2.1 =
      check_set_error error epdf_error_t.EPDF_ERROR_OUT_OF_MEMORY ∧
    (epdf_document_open sys (some e) (some p) uri password error).2.2 =
      lifecycle_event.document_open ::
        ((List.range k).map lifecycle_event.page_init ++
         (lifecycle_event.page_init k ::
          lifecycle_event.page_clear k (page_init data k).2.2.2 ::
          lifecycle_event.page_released k ::
          ((List.range k).flatMap (fun i =>
            [lifecycle_event.page_clear i (page_init data i).2.2.2,
             lifecycle_event.page_released i]) ++
           [lifecycle_event.document_free data, lifecycle_event.document_released]))) ∧
    cleared_pages (epdf_document_open sys (some e) (some p) uri password error).2.2 =
      (k, (page_init data k).2.2.2) ::
        (List.range k).map (fun i => (i, (page_init data i).2.2.2)) ∧
    released_pages (epdf_document_open sys (some e) (some p) uri password error).2.2 =
      k :: List.range k ∧
    (k :: List.range k).Nodup ∧
    document_frees (epdf_document_open sys (some e) (some p) uri password error).2.2 =
      [data] := by
  obtain ⟨rest, rfl⟩ : ∃ rest, n = k + (rest + 1) := ⟨n - k - 1, by omega⟩
  obtain ⟨d', hd', hprefix⟩ := open_pages_prefix sys (epdf_plugin_get_functions plugin)
    page_init address data plugin (k + (rest + 1)) hinit k 0 (rest + 1)
    (document_before_pages sys file real_path uri password plugin (k + (rest + 1)) data)
    (by omega) (document_before_pages_built _ _ _ _ _ _ _ _ _ _)
    (fun i _ hi => hbefore i (by omega))
  rw [Nat.zero_add] at hd'
  have hloop := open_pages_failure sys (epdf_plugin_get_functions plugin) page_init address
    data plugin (k + (rest + 1)) hinit k rest d' rfl hd' hmemory hfail
  rw [hloop] at hprefix
  have hteardown := free_of_built_pages page_init address data plugin (k + (rest + 1)) k d'
    page_clear document_free (by omega) hd' hclear hfree
  have hevents : (epdf_document_open sys (some e) (some p) uri password error).2.2 =
      lifecycle_event.document_open ::
        ((List.range k).map lifecycle_event.page_init ++
         (lifecycle_event.page_init k ::
          lifecycle_event.page_clear k (page_init data k).2.2.2 ::
          lifecycle_event.page_released k ::
          ((List.range k).flatMap (fun i =>
            [lifecycle_event.page_clear i (page_init data i).2.2.2,
             lifecycle_event.page_released i]) ++
           [lifecycle_event.document_free data, lifecycle_event.document_released]))) := by
    rw [open_at_loop sys e p uri password error file real_path content_type plugin address
      document_open (k + (rest + 1)) data hfile hpath htype hplugin hmem hopen hresult hpages,
      hprefix]
    simp only [if_true, hteardown,
      page_free_with_clear _ page_clear _ hclear
        (show (initialised_page page_init address data k).document ≠ none by
          simp [initialised_page]),
      List.range_eq_range', List.append_assoc, List.cons_append, List.nil_append]
    rfl
  refine ⟨?_, ?_, hevents, ?_, ?_, ?_, ?_⟩
  · rw [open_at_loop sys e p uri password error file real_path content_type plugin address
      document_open (k + (rest + 1)) data hfile hpath htype hplugin hmem hopen hresult hpages,
      hprefix]
    rfl
  · rw [open_at_loop sys e p uri password error file real_path content_type plugin address
      document_open (k + (rest + 1)) data hfile hpath htype hplugin hmem hopen hresult hpages,
      hprefix]
    rfl
  · rw [hevents]
    have h1 := (projections_page_inits (List.range k)).1
    have h2 := cleared_pages_bind (List.range k) (fun i => i) (fun i => (page_init data i).2.2.2)
    simp only [cleared_pages] at h1 h2
    simp [cleared_pages, List.filterMap_cons, List.filterMap_append, h1, h2]
  · rw [hevents]
    have h1 := (projections_page_inits (List.range k)).2.1
    have h2 := released_pages_bind (List.range k) (fun i => i) (fun i => (page_init data i).2.2.2)
    simp only [released_pages] at h1 h2
    simp [released_pages, List.filterMap_cons, List.filterMap_append, h1, h2]
  · exact List.nodup_cons.mpr ⟨by simp [List.mem_range], List.nodup_range k⟩
  · rw [hevents]
    have h1 := (projections_page_inits (List.range k)).2.2
    have h2 := document_frees_bind (List.range k) (fun i => i) (fun i => (page_init data i).2.2.2)
    simp only [document_frees] at h1 h2
    simp [document_frees, List.filterMap_cons, List.filterMap_append, h1, h2]

/-- C16 in the sample session with the backend `failing_functions`, which has
four pages and fails to initialise page 2: opening returns `NULL` with
OutOfMemory; page 2 is cleared and released once, then pages 0 and 1, then the
backend state is freed and the document released. -/
theorem open_page_init_failure_witness :
    (epdf_document_open sample_system (some (session_with failing_functions))
      (some "/tmp/a.pdf") none none (some epdf_error_t.EPDF_ERROR_OK)).1 = none ∧
    (epdf_document_open sample_system (some (session_with failing_functions))
      (some "/tmp/a.pdf") none none (some epdf_error_t.EPDF_ERROR_OK)).2.1 =
        some epdf_error_t.EPDF_ERROR_OUT_OF_MEMORY ∧
    (epdf_document_open sample_system (some (session_with failing_functions))
      (some "/tmp/a.pdf") none none (some epdf_error_t.EPDF_ERROR_OK)).2.2 =
      [lifecycle_event.document_open, lifecycle_event.page_init 0,
       lifecycle_event.page_init 1, lifecycle_event.page_init 2,
       lifecycle_event.page_clear 2 (some 102), lifecycle_event.page_released 2,
       lifecycle_event.page_clear 0 (some 100), lifecycle_event.page_released 0,
       lifecycle_event.page_clear 1 (some 101), lifecycle_event.page_released 1,
       lifecycle_event.document_free (some 7), lifecycle_event.document_released] :=
  have h := open_page_init_failure sample_system (session_with failing_functions) "/tmp/a.pdf"
    none none (some epdf_error_t.EPDF_ERROR_OK)
    { path := some "/tmp/a.pdf", basename := some "a.pdf" } "/tmp/a.pdf" "application/pdf"
    { functions := failing_functions } 4096
    (fun _ _ => (epdf_error_t.EPDF_ERROR_OK, 4, some 7))
    (fun _ index =>
      (if index = 2 then epdf_error_t.EPDF_ERROR_UNKNOWN else epdf_error_t.EPDF_ERROR_OK,
       612, 792, some (100 + index)))
    (fun _ _ => epdf_error_t.EPDF_ERROR_OK) (fun _ => epdf_error_t.EPDF_ERROR_OK)
    4 2 (some 7) rfl rfl rfl rfl rfl rfl rfl rfl rfl rfl rfl (by decide)
    (fun i hi => ⟨rfl, by simp [Nat.ne_of_lt hi]⟩) rfl (by decide)
  ⟨h.1, h.2.1, h.2.2.1⟩

/-! ## Page labels -/

/-- C21: for a page with a document whose backend has a `page_get_label` slot
that returns Ok, `epdf_page_get_label` returns what the slot produced (`NULL`
when it produced no label) and leaves the caller's error value as it was.  It
writes an error value in three cases only, and then returns `NULL`:
InvalidArguments when the page or its document is null, NotImplemented when
the slot is missing, and the backend's code when that code is not Ok.  With a
null error pointer nothing is written. -/
theorem get_label_error (functions : epdf_plugin_functions_t) (e : epdf_error_t) :
    (∀ (p : epdf_page_t) (address : Nat)
        (page_get_label : Nat → Option Nat → epdf_error_t × Option String),
      p.document = some address → functions.page_get_label = some page_get_label →
      (page_get_label p.index p.data).1 = epdf_error_t.EPDF_ERROR_OK →
      epdf_page_get_label functions (some p) (some e) =
        ((page_get_label p.index p.data).2, some e)) ∧
    (∀ (p : epdf_page_t) (address : Nat)
        (page_get_label : Nat → Option Nat → epdf_error_t × Option String),
      p.document = some address → functions.page_get_label = some page_get_label →
      page_get_label p.index p.data = (epdf_error_t.EPDF_ERROR_OK, none) →
      epdf_page_get_label functions (some p) (some e) = (none, some e)) ∧
    epdf_page_get_label functions none (some e) =
      (none, some epdf_error_t.EPDF_ERROR_INVALID_ARGUMENTS) ∧
    (∀ p : epdf_page_t, p.document = none →
      epdf_page_get_label functions (some p) (some e) =
        (none, some epdf_error_t.EPDF_ERROR_INVALID_ARGUMENTS)) ∧
    (∀ (p : epdf_page_t) (address : Nat),
      p.document = some address → functions.page_get_label = none →
      epdf_page_get_label functions (some p) (some e) =
        (none, some epdf_error_t.EPDF_ERROR_NOT_IMPLEMENTED)) ∧
    (∀ (p : epdf_page_t) (address : Nat)
        (page_get_label : Nat → Option Nat → epdf_error_t × Option String),
      p.document = some address → functions.page_get_label = some page_get_label →
      (page_get_label p.index p.data).1 ≠ epdf_error_t.EPDF_ERROR_OK →
      epdf_page_get_label functions (some p) (some e) =
        (none, some (page_get_label p.index p.data).1)) ∧
    (∀ page : Option epdf_page_t, (epdf_page_get_label functions page none).2 = none) := by
  refine ⟨?_, ?_, rfl, ?_, ?_, ?_, ?_⟩
  · intro p address slot hdocument hslot hok
    simp only [epdf_page_get_label, hdocument, hslot, hok, ne_eq, not_true_eq_false, if_false]
  · intro p address slot hdocument hslot hresult
    simp only [epdf_page_get_label, hdocument, hslot, hresult, ne_eq, not_true_eq_false,
      if_false]
  · intro p hdocument
    simp only [epdf_page_get_label, hdocument, check_set_error]
  · intro p address hdocument hslot
    simp only [epdf_page_get_label, hdocument, hslot, check_set_error]
  · intro p address slot hdocument hslot hfail
    simp only [epdf_page_get_label, hdocument, hslot, ne_eq, hfail, not_false_eq_true, if_true,
      check_set_error]
  · intro page
    cases page with
    | none => rfl
    | some p =>
      simp only [epdf_page_get_label]
      cases p.document with
      | none => rfl
      | some a =>
        cases functions.page_get_label with
        | none => rfl
        | some slot =>
          simp only
          split_ifs <;> rfl

/-- C21 on the first page of the sample document: a slot that returns Ok
without a label leaves the error value (here Unknown) as it was, and a slot
that fails with InvalidPassword has that code written. -/
theorem get_label_error_witness :
    epdf_page_get_label unlabelled_functions (some sample_page)
        (some epdf_error_t.EPDF_ERROR_UNKNOWN) =
      (none, some epdf_error_t.EPDF_ERROR_UNKNOWN) ∧
    epdf_page_get_label failing_label_functions (some sample_page)
        (some epdf_error_t.EPDF_ERROR_UNKNOWN) =
      (none, some epdf_error_t.EPDF_ERROR_INVALID_PASSWORD) :=
  ⟨(get_label_error unlabelled_functions epdf_error_t.EPDF_ERROR_UNKNOWN).2.1 sample_page 4096
      (fun _ _ => (epdf_error_t.EPDF_ERROR_OK, none)) rfl rfl rfl,
   (get_label_error failing_label_functions epdf_error_t.EPDF_ERROR_UNKNOWN).2.2.2.2.2.1
      sample_page 4096 (fun _ _ => (epdf_error_t.EPDF_ERROR_INVALID_PASSWORD, none)) rfl rfl
      (by decide)⟩

/-! ## Rotation is idempotent -/

/-- C22: for every document, null or not, and every request `r`, after
`epdf_document_set_rotation(doc, r)` the call
`epdf_document_set_rotation(doc, epdf_document_get_rotation(doc))` changes
nothing, so the stored rotation is the same; 0, 90, 180 and 270 are stored as
they are. -/
theorem set_rotation_idempotent (document : Option epdf_document_t) (r : Nat) :
    epdf_document_set_rotation (epdf_document_set_rotation document r)
        (epdf_document_get_rotation (epdf_document_set_rotation document r)) =
      epdf_document_set_rotation document r ∧
    epdf_document_get_rotation
        (epdf_document_set_rotation (epdf_document_set_rotation document r)
          (epdf_document_get_rotation (epdf_document_set_rotation document r))) =
      epdf_document_get_rotation (epdf_document_set_rotation document r) ∧
    (∀ d : epdf_document_t,
      epdf_document_get_rotation (epdf_document_set_rotation (some d) 0) = 0 ∧
      epdf_document_get_rotation (epdf_document_set_rotation (some d) 90) = 90 ∧
      epdf_document_get_rotation (epdf_document_set_rotation (some d) 180) = 180 ∧
      epdf_document_get_rotation (epdf_document_set_rotation (some d) 270) = 270) := by
  have h : epdf_document_set_rotation (epdf_document_set_rotation document r)
      (epdf_document_get_rotation (epdf_document_set_rotation document r)) =
      epdf_document_set_rotation document r := by
    cases document with
    | none => rfl
    | some d =>
      have hv : ∃ v : Nat, (v = 0 ∨ v = 90 ∨ v = 180 ∨ v = 270) ∧
          epdf_document_set_rotation (some d) r = some { d with rotate := v } := by
        simp only [epdf_document_set_rotation]
        split_ifs
        · exact ⟨0, Or.inl rfl, rfl⟩
        · exact ⟨90, Or.inr (Or.inl rfl), rfl⟩
        · exact ⟨180, Or.inr (Or.inr (Or.inl rfl)), rfl⟩
        · exact ⟨270, Or.inr (Or.inr (Or.inr rfl)), rfl⟩
      obtain ⟨v, hv, hset⟩ := hv
      rw [hset]
      rcases hv with rfl | rfl | rfl | rfl <;>
        simp [epdf_document_set_rotation, epdf_document_get_rotation]
  refine ⟨h, by rw [h], fun d => ⟨?_, ?_, ?_, ?_⟩⟩ <;> rw [get_set_rotation] <;> decide

/-- C22 on the sample document with the request 100, which stores 180. -/
theorem set_rotation_idempotent_witness :
    epdf_document_get_rotation (epdf_document_set_rotation (some sample_document) 100) = 180 ∧
    epdf_document_get_rotation
        (epdf_document_set_rotation (epdf_document_set_rotation (some sample_document) 100)
          (epdf_document_get_rotation
            (epdf_document_set_rotation (some sample_document) 100))) =
      epdf_document_get_rotation (epdf_document_set_rotation (some sample_document) 100) :=
  ⟨by rw [get_set_rotation]; decide, (set_rotation_idempotent (some sample_document) 100).2.1⟩

/-! ## Sign of the scale -/

/-- C24: for every non-null document and every `view_ppi`, negative values
included, `epdf_document_get_scale` is `zoom * ppi / 72` for a strictly positive
effective `ppi`, which is 100 when `view_ppi` is below the epsilon (so for every
negative or zero `view_ppi`) and `view_ppi` otherwise; the scale is zero exactly
when the zoom is zero, positive when the zoom is positive and negative when the
zoom is negative (over exact rational arithmetic). -/
theorem scale_sign (d : epdf_document_t) :
    (∃ ppi : ℚ, 0 < ppi ∧ epdf_document_get_scale (some d) = d.zoom * ppi / 72 ∧
      (d.view_ppi < DBL_EPSILON → ppi = 100) ∧ (d.view_ppi ≤ 0 → ppi = 100) ∧
      (DBL_EPSILON ≤ d.view_ppi → ppi = d.view_ppi)) ∧
    (epdf_document_get_scale (some d) = 0 ↔ d.zoom = 0) ∧
    (0 < d.zoom → 0 < epdf_document_get_scale (some d)) ∧
    (d.zoom < 0 → epdf_document_get_scale (some d) < 0) := by
  have heps : (0 : ℚ) < DBL_EPSILON := by norm_num [DBL_EPSILON]
  have hppi : ∃ ppi : ℚ, 0 < ppi ∧ epdf_document_get_scale (some d) = d.zoom * ppi / 72 ∧
      (d.view_ppi < DBL_EPSILON → ppi = 100) ∧ (d.view_ppi ≤ 0 → ppi = 100) ∧
      (DBL_EPSILON ≤ d.view_ppi → ppi = d.view_ppi) := by
    by_cases h : d.view_ppi < DBL_EPSILON
    · refine ⟨100, by norm_num, ?_, fun _ => rfl, fun _ => rfl, fun hge => ?_⟩
      · simp only [epdf_document_get_scale, if_pos h]
      · exact absurd h (not_lt.mpr hge)
    · refine ⟨d.view_ppi, lt_of_lt_of_le heps (not_lt.mp h), ?_, fun hlt => absurd hlt h,
        fun hle => ?_, fun _ => rfl⟩
      · simp only [epdf_document_get_scale, if_neg h]
      · exact absurd (lt_of_le_of_lt hle heps) h
  obtain ⟨ppi, hpos, hscale, hbelow, hnegative, hkept⟩ := hppi
  refine ⟨⟨ppi, hpos, hscale, hbelow, hnegative, hkept⟩, ?_, ?_, ?_⟩
  · rw [hscale]
    constructor
    · intro h0
      have h72 : (72 : ℚ) ≠ 0 := by norm_num
      rcases mul_eq_zero.mp ((div_eq_zero_iff.mp h0).resolve_right h72) with hz | hp
      · exact hz
      · exact absurd hp (ne_of_gt hpos)
    · intro hz
      rw [hz]
      simp
  · intro hz
    rw [hscale]
    exact div_pos (mul_pos hz hpos) (by norm_num)
  · intro hz
    rw [hscale]
    exact div_neg_of_neg_of_pos (mul_neg_of_neg_of_pos hz hpos) (by norm_num)

/-- C24 at `zoom = 2`, `view_ppi = -96`, where the scale is `200 / 72`, and at
`zoom = -2`, `view_ppi = 150`, where the scale is negative. -/
theorem scale_sign_witness :
    epdf_document_get_scale (some zoomed_document_negative_ppi) = 200 / 72 ∧
    0 < epdf_document_get_scale (some zoomed_document_negative_ppi) ∧
    epdf_document_get_scale (some mirrored_document_150_ppi) < 0 := by
  refine ⟨?_,
    (scale_sign zoomed_document_negative_ppi).2.2.1 (by norm_num [zoomed_document_negative_ppi]),
    (scale_sign mirrored_document_150_ppi).2.2.2 (by norm_num [mirrored_document_150_ppi])⟩
  obtain ⟨ppi, _, hscale, _, hneg, _⟩ := (scale_sign zoomed_document_negative_ppi).1
  rw [hscale, hneg (by norm_num [zoomed_document_negative_ppi])]
  norm_num [zoomed_document_negative_ppi]

/-! ## Opening: every page failure is reported as OutOfMemory -/

/-- When `epdf_page_new` returns a page, the page was allocated and the
backend's `page_init` returned Ok. -/
theorem page_new_some (functions : epdf_plugin_functions_t) (page_memory : Bool)
    (address : Nat) (d : epdf_document_t) (index : Nat) (page : epdf_page_t)
    (h : (epdf_page_new functions page_memory (some (address, d)) index none).1 = some page) :
    page_memory = true ∧
    ∃ page_init : Option Nat → Nat → epdf_error_t × ℚ × ℚ × Option Nat,
      functions.page_init = some page_init ∧
      (page_init d.data index).1 = epdf_error_t.EPDF_ERROR_OK := by
  simp only [epdf_page_new] at h
  cases hm : page_memory with
  | false =>
    rw [hm] at h
    simp at h
  | true =>
    rw [hm] at h
    refine ⟨rfl, ?_⟩
    cases hinit : functions.page_init with
    | none =>
      rw [hinit] at h
      simp at h
    | some page_init =>
      rw [hinit] at h
      refine ⟨page_init, rfl, ?_⟩
      by_contra hfail
      simp [hfail] at h

/-- When the page loop builds every page, no page construction failed. -/
theorem open_pages_success (sys : epdf_system_t) (functions : epdf_plugin_functions_t)
    (address : Nat) (count : Nat) (d : epdf_document_t)
    (hle : count ≤ d.number_of_pages)
    (hres : (epdf_document_open_pages sys functions address count d).1 = true) (i : Nat)
    (hlow : d.number_of_pages - count ≤ i) (hhigh : i < d.number_of_pages) :
    ¬ page_construction_fails sys functions d.data i := by
  induction count generalizing d with
  | zero => omega
  | succ c ih =>
    rw [open_pages_succ] at hres
    cases hnew : (epdf_page_new functions (sys.page_memory (d.number_of_pages - (c + 1)))
        (some (address, d)) (d.number_of_pages - (c + 1)) none).1 with
    | none =>
      rw [hnew] at hres
      simp at hres
    | some page =>
      rw [hnew] at hres
      simp only at hres
      obtain ⟨hmemory, page_init, hinit, hok⟩ := page_new_some _ _ _ _ _ _ hnew
      by_cases hi : i = d.number_of_pages - (c + 1)
      · subst hi
        rintro (hm | hnone | ⟨page_init', hinit', hfail⟩)
        · rw [hmemory] at hm
          exact Bool.noConfusion hm
        · rw [hinit] at hnone
          exact Option.noConfusion hnone
        · rw [hinit] at hinit'
          rw [← Option.some.inj hinit'] at hfail
          exact hfail hok
      · have hn := store_page_number_of_pages d (d.number_of_pages - (c + 1)) page
        have hdata : (store_page d (d.number_of_pages - (c + 1)) page).data = d.data := by
          rw [store_page_eq]
        have := ih (store_page d (d.number_of_pages - (c + 1)) page) (by rw [hn]; omega) hres
          (by rw [hn]; omega) (by rw [hn]; exact hhigh)
        rw [hdata] at this
        exact this

/-- C25: once `epdf_document_open` has reached its page loop (path resolved,
backend found, document and page array allocated, the backend's open slot
succeeded with `n` pages and state `data`), if the construction of some page
`k < n` fails, whatever the cause (the page cannot be allocated, the `page_init`
slot is missing, or `page_init` returns a code other than Ok), then
`epdf_document_open` returns `NULL` and what it writes through its error
parameter is OutOfMemory; the code returned by `page_init` is not reported. -/
theorem open_page_failure_error (sys : epdf_system_t) (e : epdf_t) (p : String)
    (uri password : Option String) (error : Option epdf_error_t) (file : g_file_t)
    (real_path content_type : String) (plugin : epdf_plugin_t) (address : Nat)
    (document_open : Option String → Option String → epdf_error_t × Nat × Option Nat)
    (n k : Nat) (data : Option Nat)
    (hfile : sys.g_file_new_for_path p = some file) (hpath : file.path = some real_path)
    (htype : e.epdf_content_type_guess real_path = some content_type)
    (hplugin : e.epdf_plugin_manager_get_plugin content_type = some plugin)
    (hmem : sys.document_memory = some address)
    (hopen : (epdf_plugin_get_functions plugin).document_open = some document_open)
    (hresult : document_open (some real_path) password = (epdf_error_t.EPDF_ERROR_OK, n, data))
    (hpages : sys.pages_memory n = true) (hk : k < n)
    (hfail : page_construction_fails sys (epdf_plugin_get_functions plugin) data k) :
    (epdf_document_open sys (some e) (some p) uri password error).1 = none ∧
    (epdf_document_open sys (some e) (some p) uri password error).2.1 =
      check_set_error error epdf_error_t.EPDF_ERROR_OUT_OF_MEMORY ∧
    (∀ previous : epdf_error_t, error = some previous →
      (epdf_document_open sys (some e) (some p) uri password error).2.1 =
        some epdf_error_t.EPDF_ERROR_OUT_OF_MEMORY) := by
  have hloop : (epdf_document_open_pages sys (epdf_plugin_get_functions plugin) address n
      (document_before_pages sys file real_path uri password plugin n data)).1 = false := by
    cases hb : (epdf_document_open_pages sys (epdf_plugin_get_functions plugin) address n
        (document_before_pages sys file real_path uri password plugin n data)).1 with
    | false => rfl
    | true =>
      have hlow : (document_before_pages sys file real_path uri password plugin n
          data).number_of_pages - n ≤ k := by
        show n - n ≤ k
        omega
      exact absurd hfail (open_pages_success sys (epdf_plugin_get_functions plugin) address n
        (document_before_pages sys file real_path uri password plugin n data) (le_refl n) hb k
        hlow hk)
  have hrun := open_at_loop sys e p uri password error file real_path content_type plugin
    address document_open n data hfile hpath htype hplugin hmem hopen hresult hpages
  rw [if_pos hloop] at hrun
  refine ⟨by rw [hrun], by rw [hrun], fun previous hprevious => ?_⟩
  rw [hrun, hprevious]
  rfl

/-- C25 in the sample session, with the error variable holding Ok before the
call: a `page_init` that returns Unknown at page 2, a backend without
`page_init`, and a system that cannot allocate page 1 all end with `NULL` and
OutOfMemory. -/
theorem open_page_failure_error_witness :
    ((epdf_document_open sample_system (some (session_with failing_functions))
        (some "/tmp/a.pdf") none none (some epdf_error_t.EPDF_ERROR_OK)).1 = none ∧
     (epdf_document_open sample_system (some (session_with failing_functions))
        (some "/tmp/a.pdf") none none (some epdf_error_t.EPDF_ERROR_OK)).2.1 =
          some epdf_error_t.EPDF_ERROR_OUT_OF_MEMORY) ∧
    ((epdf_document_open sample_system (some (session_with no_page_init_functions))
        (some "/tmp/a.pdf") none none (some epdf_error_t.EPDF_ERROR_OK)).1 = none ∧
     (epdf_document_open sample_system (some (session_with no_page_init_functions))
        (some "/tmp/a.pdf") none none (some epdf_error_t.EPDF_ERROR_OK)).2.1 =
          some epdf_error_t.EPDF_ERROR_OUT_OF_MEMORY) ∧
    ((epdf_document_open scarce_system (some (session_with sample_functions))
        (some "/tmp/a.pdf") none none (some epdf_error_t.EPDF_ERROR_OK)).1 = none ∧
     (epdf_document_open scarce_system (some (session_with sample_functions))
        (some "/tmp/a.pdf") none none (some epdf_error_t.EPDF_ERROR_OK)).2.1 =
          some epdf_error_t.EPDF_ERROR_OUT_OF_MEMORY) :=
  have h1 := open_page_failure_error sample_system (session_with failing_functions)
    "/tmp/a.pdf" none none (some epdf_error_t.EPDF_ERROR_OK)
    { path := some "/tmp/a.pdf", basename := some "a.pdf" } "/tmp/a.pdf" "application/pdf"
    { functions := failing_functions } 4096
    (fun _ _ => (epdf_error_t.EPDF_ERROR_OK, 4, some 7)) 4 2 (some 7)
    rfl rfl rfl rfl rfl rfl rfl rfl (by decide)
    (Or.inr (Or.inr ⟨fun _ index =>
      (if index = 2 then epdf_error_t.EPDF_ERROR_UNKNOWN else epdf_error_t.EPDF_ERROR_OK,
       612, 792, some (100 + index)), rfl, by decide⟩))
  have h2 := open_page_failure_error sample_system (session_with no_page_init_functions)
    "/tmp/a.pdf" none none (some epdf_error_t.EPDF_ERROR_OK)
    { path := some "/tmp/a.pdf", basename := some "a.pdf" } "/tmp/a.pdf" "application/pdf"
    { functions := no_page_init_functions } 4096
    (fun _ _ => (epdf_error_t.EPDF_ERROR_OK, 2, some 7)) 2 0 (some 7)
    rfl rfl rfl rfl rfl rfl rfl rfl (by decide) (Or.inr (Or.inl rfl))
  have h3 := open_page_failure_error scarce_system (session_with sample_functions)
    "/tmp/a.pdf" none none (some epdf_error_t.EPDF_ERROR_OK)
    { path := some "/tmp/a.pdf", basename := some "a.pdf" } "/tmp/a.pdf" "application/pdf"
    { functions := sample_functions } 4096
    (fun _ _ => (epdf_error_t.EPDF_ERROR_OK, 2, some 7)) 2 1 (some 7)
    rfl rfl rfl rfl rfl rfl rfl rfl (by decide) (Or.inl rfl)
  ⟨⟨h1.1, h1.2.2 _ rfl⟩, ⟨h2.1, h2.2.2 _ rfl⟩, ⟨h3.1, h3.2.2 _ rfl⟩⟩

/-! ## The document size grows with the page count -/

/-- The row count of a document with at least one page, one column and a first
column of at least 1, when its sum does not wrap around: it is the least number
of rows of `cols` cells that hold `pages + first_col - 1` cells. -/
theorem document_size_rows_bounds (d : epdf_document_t)
    (hp : 1 ≤ d.number_of_pages) (hc : 1 ≤ d.pages_per_row) (hf : 1 ≤ d.first_page_column)
    (hs : d.number_of_pages + d.first_page_column + d.pages_per_row - 2 < UINT_RANGE) :
    document_size_rows d =
      (d.number_of_pages + d.first_page_column - 1 + d.pages_per_row - 1) / d.pages_per_row ∧
    1 ≤ document_size_rows d ∧ document_size_rows d < UINT_RANGE ∧
    (document_size_rows d - 1) * d.pages_per_row < d.number_of_pages + d.first_page_column - 1 ∧
    d.number_of_pages + d.first_page_column - 1 ≤ document_size_rows d * d.pages_per_row := by
  have hrows : document_size_rows d =
      (d.number_of_pages + d.first_page_column - 1 + d.pages_per_row - 1) / d.pages_per_row := by
    unfold document_size_rows
    rw [row_sum_no_wrap _ _ _ hp hf hc hs]
  rw [hrows]
  have hdm := Nat.div_add_mod
    (d.number_of_pages + d.first_page_column - 1 + d.pages_per_row - 1) d.pages_per_row
  have hmod := Nat.mod_lt
    (d.number_of_pages + d.first_page_column - 1 + d.pages_per_row - 1)
    (show d.pages_per_row > 0 by omega)
  have hlt : (d.number_of_pages + d.first_page_column - 1 + d.pages_per_row - 1) /
      d.pages_per_row < UINT_RANGE :=
    lt_of_le_of_lt (Nat.div_le_self _ _) (by omega)
  generalize (d.number_of_pages + d.first_page_column - 1 + d.pages_per_row - 1) /
    d.pages_per_row = q at hdm hlt ⊢
  generalize (d.number_of_pages + d.first_page_column - 1 + d.pages_per_row - 1) %
    d.pages_per_row = r at hdm hmod
  have hq1 : 1 ≤ q := by
    rcases Nat.eq_zero_or_pos q with h0 | h0
    · subst h0
      simp at hdm
      omega
    · exact h0
  obtain ⟨t, rfl⟩ : ∃ t, q = t + 1 := ⟨q - 1, by omega⟩
  have hmul : d.pages_per_row * (t + 1) = d.pages_per_row * t + d.pages_per_row := by ring
  have hcomm1 : (t + 1 - 1) * d.pages_per_row = d.pages_per_row * t := by
    rw [Nat.add_sub_cancel, Nat.mul_comm]
  have hcomm2 : (t + 1) * d.pages_per_row = d.pages_per_row * t + d.pages_per_row := by ring
  refine ⟨rfl, hq1, hlt, ?_, ?_⟩
  · rw [hcomm1]
    omega
  · rw [hcomm2]
    omega

/-- The size that `epdf_document_get_document_size` returns for a document with
at least one page and one column, in terms of its row count. -/
theorem document_size_of_rows
    (page_calc_height_width : epdf_document_t → ℚ → ℚ → Bool → Nat × Nat)
    (d : epdf_document_t) (h w ch cw : Nat)
    (hp : 1 ≤ d.number_of_pages) (hc : 1 ≤ d.pages_per_row) (hf : 1 ≤ d.first_page_column)
    (hs : d.number_of_pages + d.first_page_column + d.pages_per_row - 2 < UINT_RANGE)
    (hcell : epdf_document_get_cell_size page_calc_height_width (some d) (some 0) (some 0) =
      (some ch, some cw)) :
    epdf_document_get_document_size page_calc_height_width (some d) (some h) (some w) =
      (some ((document_size_rows d * ch + (document_size_rows d - 1) * d.page_padding) %
          UINT_RANGE),
       some ((d.pages_per_row * cw + (d.pages_per_row - 1) * d.page_padding) %
          UINT_RANGE)) := by
  obtain ⟨_, hr1, hru, _, _⟩ := document_size_rows_bounds d hp hc hf hs
  have hsubr : uint_sub (document_size_rows d) 1 = document_size_rows d - 1 := by
    unfold uint_sub
    unfold UINT_RANGE at *
    omega
  have hsubc : uint_sub d.pages_per_row 1 = d.pages_per_row - 1 := by
    unfold uint_sub
    unfold UINT_RANGE at *
    omega
  simp only [epdf_document_get_document_size, epdf_document_get_number_of_pages,
    epdf_document_get_pages_per_row, epdf_document_get_first_page_column,
    epdf_document_get_page_padding]
  have hfold : uint_sub (uint_add (uint_sub (uint_add d.number_of_pages d.first_page_column) 1)
      d.pages_per_row) 1 / d.pages_per_row = document_size_rows d := rfl
  rw [if_neg (by omega), hcell, hfold]
  simp only [Option.getD_some, hsubr, hsubc, uint_add_mul]

/-- C23: for a document with `cols = pages_per_row >= 1`, `first_page_column` in
`[1, cols]`, and page counts `1 <= n <= m`, all other state (and so the cell
size `(ch, cw)`) being equal, with no 32-bit wraparound in the row sum, the
height sum and the width sum: the width returned by
`epdf_document_get_document_size` is the same for `n` and `m` pages, the height
for `n` pages is at most the height for `m` pages, and the row count `rows` for
either page count `k` satisfies `(rows - 1) * cols < k + first_page_column - 1
<= rows * cols`. -/
theorem document_size_monotone
    (page_calc_height_width : epdf_document_t → ℚ → ℚ → Bool → Nat × Nat)
    (d : epdf_document_t) (n m h w ch cw : Nat)
    (hc : 1 ≤ d.pages_per_row) (hf1 : 1 ≤ d.first_page_column)
    (_hf2 : d.first_page_column ≤ d.pages_per_row) (hn : 1 ≤ n) (hnm : n ≤ m)
    (hs : m + d.first_page_column + d.pages_per_row - 2 < UINT_RANGE)
    (hheight : document_size_rows { d with number_of_pages := m } * ch +
      (document_size_rows { d with number_of_pages := m } - 1) * d.page_padding < UINT_RANGE)
    (hwidth : d.pages_per_row * cw + (d.pages_per_row - 1) * d.page_padding < UINT_RANGE)
    (hcell_n : epdf_document_get_cell_size page_calc_height_width
      (some { d with number_of_pages := n }) (some 0) (some 0) = (some ch, some cw))
    (hcell_m : epdf_document_get_cell_size page_calc_height_width
      (some { d with number_of_pages := m }) (some 0) (some 0) = (some ch, some cw)) :
    (epdf_document_get_document_size page_calc_height_width
        (some { d with number_of_pages := n }) (some h) (some w)).2 =
      (epdf_document_get_document_size page_calc_height_width
        (some { d with number_of_pages := m }) (some h) (some w)).2 ∧
    (epdf_document_get_document_size page_calc_height_width
        (some { d with number_of_pages := n }) (some h) (some w)).2 =
      some (d.pages_per_row * cw + (d.pages_per_row - 1) * d.page_padding) ∧
    (epdf_document_get_document_size page_calc_height_width
        (some { d with number_of_pages := n }) (some h) (some w)).1 =
      some (document_size_rows { d with number_of_pages := n } * ch +
        (document_size_rows { d with number_of_pages := n } - 1) * d.page_padding) ∧
    (epdf_document_get_document_size page_calc_height_width
        (some { d with number_of_pages := m }) (some h) (some w)).1 =
      some (document_size_rows { d with number_of_pages := m } * ch +
        (document_size_rows { d with number_of_pages := m } - 1) * d.page_padding) ∧
    document_size_rows { d with number_of_pages := n } * ch +
        (document_size_rows { d with number_of_pages := n } - 1) * d.page_padding ≤
      document_size_rows { d with number_of_pages := m } * ch +
        (document_size_rows { d with number_of_pages := m } - 1) * d.page_padding ∧
    ((document_size_rows { d with number_of_pages := n } - 1) * d.pages_per_row <
        n + d.first_page_column - 1 ∧
      n + d.first_page_column - 1 ≤
        document_size_rows { d with number_of_pages := n } * d.pages_per_row) ∧
    ((document_size_rows { d with number_of_pages := m } - 1) * d.pages_per_row <
        m + d.first_page_column - 1 ∧
      m + d.first_page_column - 1 ≤
        document_size_rows { d with number_of_pages := m } * d.pages_per_row) := by
  have hsn : n + d.first_page_column + d.pages_per_row - 2 < UINT_RANGE := by omega
  obtain ⟨hrn, _, _, hn1, hn2⟩ :=
    document_size_rows_bounds { d with number_of_pages := n } hn hc hf1 hsn
  obtain ⟨hrm, _, _, hm1, hm2⟩ :=
    document_size_rows_bounds { d with number_of_pages := m } (le_trans hn hnm) hc hf1 hs
  have hsize_n := document_size_of_rows page_calc_height_width { d with number_of_pages := n }
    h w ch cw hn hc hf1 hsn hcell_n
  have hsize_m := document_size_of_rows page_calc_height_width { d with number_of_pages := m }
    h w ch cw (le_trans hn hnm) hc hf1 hs hcell_m
  have hrows : document_size_rows { d with number_of_pages := n } ≤
      document_size_rows { d with number_of_pages := m } := by
    rw [hrn, hrm]
    have hnum : n + d.first_page_column - 1 + d.pages_per_row - 1 ≤
        m + d.first_page_column - 1 + d.pages_per_row - 1 := by omega
    exact Nat.div_le_div_right hnum
  have hle : document_size_rows { d with number_of_pages := n } * ch +
      (document_size_rows { d with number_of_pages := n } - 1) * d.page_padding ≤
      document_size_rows { d with number_of_pages := m } * ch +
        (document_size_rows { d with number_of_pages := m } - 1) * d.page_padding :=
    Nat.add_le_add (Nat.mul_le_mul_right _ hrows)
      (Nat.mul_le_mul_right _ (Nat.sub_le_sub_right hrows 1))
  have hheight_n := lt_of_le_of_lt hle hheight
  refine ⟨?_, ?_, ?_, ?_, hle, ⟨hn1, hn2⟩, ⟨hm1, hm2⟩⟩
  · rw [hsize_n, hsize_m]
  · rw [hsize_n]
    exact congrArg some (Nat.mod_eq_of_lt hwidth)
  · rw [hsize_n]
    exact congrArg some (Nat.mod_eq_of_lt hheight_n)
  · rw [hsize_m]
    exact congrArg some (Nat.mod_eq_of_lt hheight)

/-- C23 on the sample document with 3 columns, first column 1, no padding and a
cell of height 100 and width 50: 4 pages give 2 rows and the size 200 x 150,
10 pages give 4 rows and the size 400 x 150. -/
theorem document_size_monotone_witness :
    document_size_rows { ten_page_document with number_of_pages := 4 } = 2 ∧
    document_size_rows { ten_page_document with number_of_pages := 10 } = 4 ∧
    epdf_document_get_document_size sample_page_calc
      (some { ten_page_document with number_of_pages := 4 }) (some 0) (some 0) =
        (some 200, some 150) ∧
    epdf_document_get_document_size sample_page_calc
      (some { ten_page_document with number_of_pages := 10 }) (some 0) (some 0) =
        (some 400, some 150) := by
  have h := document_size_monotone sample_page_calc ten_page_document 4 10 0 0 100 50
    (by decide) (by decide) (by decide) (by decide) (by decide) (by decide) (by decide)
    (by decide) rfl rfl
  have hr4 : document_size_rows { ten_page_document with number_of_pages := 4 } = 2 := by
    decide
  have hr10 : document_size_rows { ten_page_document with number_of_pages := 10 } = 4 := by
    decide
  obtain ⟨hw, hwn, hhn, hhm, _⟩ := h
  rw [hr4] at hhn
  rw [hr10] at hhm
  refine ⟨hr4, hr10, Prod.ext hhn hwn, Prod.ext hhm ?_⟩
  rw [← hw]
  exact hwn

end Epdf
